import Mathlib

/-!
Keyboard backlight controller (`keyboard_backlight.c`)

A shallow embedding of `config/boards/arm/p9981/custom_driver/keyboard_backlight.c`.

* The file-scope variables become the fields of `ControllerState`.
* Each work handler becomes a function from the state (and, for the poller, the
  values it samples) to the new state and the list of calls it makes, in
  program order: `set_led_brightness`, `k_work_cancel_delayable`,
  `k_work_reschedule`.  `set_led_brightness` returns `void`, so no handler's
  control flow depends on what the LED device does.
* `set_led_brightness` itself is embedded over a `LedDevice` (readiness and the
  return values of the channel writes); `perform_all` carries the calls of a
  handler out on a device.
* The three delayable work items are modelled by `Timers`: for each item the
  delay it is currently scheduled with, or `none` when it is not pending.
* `cycle_brightness` is a `uint8_t`: it is a `Nat` and the arithmetic on it is
  taken `% 256`.
-/

set_option maxRecDepth 100000

namespace KeyboardBacklight

/-! ## Constants -/

def BRT_MAX : Nat := 90
def BRT_BLINK_HIGH : Nat := 100
def BRT_BLINK_LOW : Nat := 10
def BLINK_INTERVAL_MS : Nat := 500

def CYCLE_BRT_MIN : Nat := 10
def CYCLE_BRT_MAX : Nat := 100
def CYCLE_BRT_STEP : Nat := 5
def CYCLE_INTERVAL_MS : Nat := 20

/-- Value of the errno constant `ENODEV`. -/
def ENODEV : Int := 19

/-! ## Data model -/

/-- The file-scope variables of the driver (lines 40-45). -/
structure ControllerState where
  prev_active : Bool
  prev_layer : Int
  blink_on : Bool
  blink_start_high : Bool
  cycle_brightness : Nat
  cycle_direction_up : Bool
deriving DecidableEq, Repr

/-- The static initialisers of the file-scope variables. -/
def boot_state : ControllerState :=
  { prev_active := false
    prev_layer := -1
    blink_on := false
    blink_start_high := true
    cycle_brightness := CYCLE_BRT_MIN
    cycle_direction_up := true }

/-- The three delayable work items (lines 47-49). -/
inductive Work where
  | polling_work
  | blink_work
  | cycle_work
deriving DecidableEq, Repr

/-- The calls a handler makes, recorded in program order. -/
inductive Action where
  | set_led_brightness (level : Nat)
  | k_work_init_delayable (w : Work)
  | k_work_cancel_delayable (w : Work)
  | k_work_reschedule (w : Work) (ms : Nat)
deriving DecidableEq, Repr

/-- The values `polling_work_handler` samples at the start of a run. -/
structure PollInput where
  /-- The truth of `zmk_activity_get_state() == ZMK_ACTIVITY_ACTIVE`. -/
  active : Bool
  /-- The result of `zmk_keymap_highest_layer_active()`. -/
  current_layer : Int
  /-- Whether `CONFIG_ZMK_RGB_UNDERGLOW` is enabled. -/
  underglow_enabled : Bool
  /-- The return value of `zmk_rgb_underglow_get_state(&rgb_on)`. -/
  underglow_ret : Int
  /-- The value `zmk_rgb_underglow_get_state` leaves in `rgb_on`. -/
  underglow_state : Bool
deriving DecidableEq, Repr

/-! ## Handlers -/

/-- The local `rgb_on` of `polling_work_handler` (lines 110-115). -/
def rgb_on (inp : PollInput) : Bool :=
  if inp.underglow_enabled then
    if inp.underglow_ret < 0 then true else inp.underglow_state
  else true

/-- Embedding of `blink_work_handler` (lines 65-76). -/
def blink_work_handler (s : ControllerState) : ControllerState × List Action :=
  if s.prev_layer ≠ 1 ∧ s.prev_layer ≠ 3 then
    (s, [Action.set_led_brightness 0])
  else
    let s1 := { s with blink_on := !s.blink_on }
    let interval := if s1.prev_layer = 3 then BLINK_INTERVAL_MS / 2 else BLINK_INTERVAL_MS
    (s1, [Action.set_led_brightness (if s1.blink_on then BRT_BLINK_HIGH else BRT_BLINK_LOW),
          Action.k_work_reschedule Work.blink_work interval])

/-- The update of `cycle_brightness` and `cycle_direction_up` in
`cycle_work_handler` (lines 87-100), with `uint8_t` arithmetic. -/
def cycle_advance (s : ControllerState) : ControllerState :=
  if s.cycle_direction_up then
    let b := (s.cycle_brightness + CYCLE_BRT_STEP) % 256
    if b ≥ CYCLE_BRT_MAX then
      { s with cycle_brightness := CYCLE_BRT_MAX, cycle_direction_up := false }
    else
      { s with cycle_brightness := b }
  else
    if s.cycle_brightness < CYCLE_BRT_STEP then
      { s with cycle_brightness := CYCLE_BRT_MIN, cycle_direction_up := true }
    else
      { s with cycle_brightness := (s.cycle_brightness + 256 - CYCLE_BRT_STEP) % 256 }

/-- Embedding of `cycle_work_handler` (lines 79-102). -/
def cycle_work_handler (s : ControllerState) : ControllerState × List Action :=
  if s.prev_layer ≠ 2 then
    (s, [Action.set_led_brightness 0])
  else
    (cycle_advance s,
      [Action.set_led_brightness s.cycle_brightness,
       Action.k_work_reschedule Work.cycle_work CYCLE_INTERVAL_MS])

/-- The body of the `if` of `polling_work_handler` (lines 118-161): the
transition branch, for the sampled `active`, `current_layer` and `rgb`. -/
def poll_transition (s : ControllerState) (active : Bool) (current_layer : Int) (rgb : Bool) :
    ControllerState × List Action :=
  let s1 := { s with prev_layer := current_layer, prev_active := active }
  let s2 := { s1 with blink_on := false, cycle_brightness := CYCLE_BRT_MIN,
                      cycle_direction_up := true }
  let pre := [Action.k_work_cancel_delayable Work.blink_work,
              Action.k_work_cancel_delayable Work.cycle_work]
  if current_layer = 0 then
    (s2, pre ++ [Action.set_led_brightness (if rgb && active then BRT_MAX else 0)])
  else if current_layer = 1 then
    let s3 := { s2 with blink_start_high := if !rgb then true else false }
    let s4 := { s3 with blink_on := s3.blink_start_high }
    (s4, pre ++ [Action.set_led_brightness (if s4.blink_on then BRT_BLINK_HIGH else BRT_BLINK_LOW),
                 Action.k_work_reschedule Work.blink_work (BLINK_INTERVAL_MS / 2)])
  else if current_layer = 2 then
    (s2, pre ++ [Action.k_work_reschedule Work.cycle_work 100])
  else if current_layer = 3 then
    ({ s2 with blink_on := false },
      pre ++ [Action.set_led_brightness BRT_BLINK_LOW,
              Action.k_work_reschedule Work.blink_work (BLINK_INTERVAL_MS / 2)])
  else
    (s2, pre ++ [Action.set_led_brightness 0])

/-- Embedding of `polling_work_handler` (lines 105-165). -/
def polling_work_handler (s : ControllerState) (inp : PollInput) :
    ControllerState × List Action :=
  let active := inp.active
  let current_layer := inp.current_layer
  let rgb := rgb_on inp
  let r :=
    if current_layer ≠ s.prev_layer ∨ active ≠ s.prev_active then
      poll_transition s active current_layer rgb
    else
      (s, [])
  (r.1, r.2 ++ [Action.k_work_reschedule Work.polling_work 100])

/-- Embedding of `middlebacklight_init` (lines 167-182): the return value, the
state and the calls made, given `device_is_ready(indiled_dev)` and the activity
reading. -/
def middlebacklight_init (device_ready : Bool) (active : Bool) (s : ControllerState) :
    Int × ControllerState × List Action :=
  if !device_ready then
    (-ENODEV, s, [])
  else
    (0, { s with prev_active := active, prev_layer := -1 },
      [Action.k_work_init_delayable Work.polling_work,
       Action.k_work_init_delayable Work.blink_work,
       Action.k_work_init_delayable Work.cycle_work,
       Action.k_work_reschedule Work.polling_work 100])

/-! ## Observations on a list of calls -/

/-- The levels passed to `set_led_brightness`, in order. -/
def emitted : List Action → List Nat
  | [] => []
  | Action.set_led_brightness level :: rest => level :: emitted rest
  | _ :: rest => emitted rest

/-! ## Timers and the whole system -/

/-- For each delayable work item, the delay it is scheduled with, or `none`
when it is not pending. -/
structure Timers where
  polling_work : Option Nat
  blink_work : Option Nat
  cycle_work : Option Nat
deriving DecidableEq, Repr

/-- Overwrite the entry of one work item. -/
def Timers.set (t : Timers) (w : Work) (v : Option Nat) : Timers :=
  match w with
  | Work.polling_work => { t with polling_work := v }
  | Work.blink_work => { t with blink_work := v }
  | Work.cycle_work => { t with cycle_work := v }

/-- The effect of one call on the timers: initialising or cancelling a work
item leaves it not pending, rescheduling it leaves it pending with the new
delay, and `set_led_brightness` does not touch the timers. -/
def apply_action (t : Timers) : Action → Timers
  | Action.set_led_brightness _ => t
  | Action.k_work_init_delayable w => t.set w none
  | Action.k_work_cancel_delayable w => t.set w none
  | Action.k_work_reschedule w ms => t.set w (some ms)

/-- The effect of a list of calls on the timers, in order. -/
def apply_actions (t : Timers) (acts : List Action) : Timers :=
  acts.foldl apply_action t

/-- The controller variables together with the timers. -/
structure System where
  state : ControllerState
  timers : Timers
deriving DecidableEq, Repr

/-- The system before `middlebacklight_init`: static initialisers, nothing
scheduled. -/
def boot_system : System :=
  { state := boot_state
    timers := { polling_work := none, blink_work := none, cycle_work := none } }

/-- The system after `middlebacklight_init` has run at boot. -/
def system_init (device_ready : Bool) (active : Bool) : System :=
  let r := middlebacklight_init device_ready active boot_system.state
  { state := r.2.1, timers := apply_actions boot_system.timers r.2.2 }

/-- One run of `polling_work_handler` as a work item: the item stops being
pending when it starts to run, then the handler's calls take effect. -/
def poll_tick (sys : System) (inp : PollInput) : System :=
  let r := polling_work_handler sys.state inp
  { state := r.1, timers := apply_actions (sys.timers.set Work.polling_work none) r.2 }

/-- One run of `blink_work_handler` as a work item. -/
def blink_tick (sys : System) : System :=
  let r := blink_work_handler sys.state
  { state := r.1, timers := apply_actions (sys.timers.set Work.blink_work none) r.2 }

/-- One run of `cycle_work_handler` as a work item. -/
def cycle_tick (sys : System) : System :=
  let r := cycle_work_handler sys.state
  { state := r.1, timers := apply_actions (sys.timers.set Work.cycle_work none) r.2 }

/-- What can happen next: a poller tick with some readings, or the blink or the
breathe timer firing. -/
inductive Event where
  | poll (inp : PollInput)
  | blink
  | cycle
deriving DecidableEq, Repr

/-- One event. The blink and breathe timers fire only when pending. -/
def fire (sys : System) : Event → Option System
  | Event.poll inp => some (poll_tick sys inp)
  | Event.blink => if sys.timers.blink_work.isSome then some (blink_tick sys) else none
  | Event.cycle => if sys.timers.cycle_work.isSome then some (cycle_tick sys) else none

/-- A sequence of events, from left to right. -/
def run (sys : System) : List Event → Option System
  | [] => some sys
  | e :: es =>
    match fire sys e with
    | some sys1 => run sys1 es
    | none => none

/-! ## Repeated driver invocations -/

/-- The state after `n` consecutive runs of `cycle_work_handler`. -/
def cycle_run (s : ControllerState) : Nat → ControllerState
  | 0 => s
  | n + 1 => (cycle_work_handler (cycle_run s n)).1

/-- The calls made by the `n`-th consecutive run of `cycle_work_handler`,
counting from 1. -/
def cycle_calls (s : ControllerState) : Nat → List Action
  | 0 => []
  | n + 1 => (cycle_work_handler (cycle_run s n)).2

/-- The calls made by the first `n` consecutive runs of `cycle_work_handler`. -/
def cycle_trace (s : ControllerState) : Nat → List Action
  | 0 => []
  | n + 1 => cycle_trace s n ++ cycle_calls s (n + 1)

/-- The state after `n` consecutive runs of `blink_work_handler`. -/
def blink_run (s : ControllerState) : Nat → ControllerState
  | 0 => s
  | n + 1 => (blink_work_handler (blink_run s n)).1

/-- The calls made by the `n`-th consecutive run of `blink_work_handler`,
counting from 1. -/
def blink_calls (s : ControllerState) : Nat → List Action
  | 0 => []
  | n + 1 => (blink_work_handler (blink_run s n)).2

/-- A state in which the breathe pattern has just been started:
`prev_layer = 2`, `cycle_brightness = CYCLE_BRT_MIN`, direction rising. -/
def breathe_start : ControllerState :=
  { prev_active := true
    prev_layer := 2
    blink_on := false
    blink_start_high := true
    cycle_brightness := CYCLE_BRT_MIN
    cycle_direction_up := true }

/-- The other one of the two blink levels. -/
def opposite_level (level : Nat) : Nat :=
  if level = BRT_BLINK_HIGH then BRT_BLINK_LOW else BRT_BLINK_HIGH

/-- The invariant behind the exclusive-pattern property: a pending blink timer
means the stored layer is 1 or 3, a pending breathe timer means it is 2. -/
def timers_match_layer (sys : System) : Prop :=
  (sys.timers.blink_work.isSome → sys.state.prev_layer = 1 ∨ sys.state.prev_layer = 3) ∧
  (sys.timers.cycle_work.isSome → sys.state.prev_layer = 2)

/-- The breathe step as the specification words it, on the pair
(brightness, rising): rising goes to `min (b + 5) 100` and turns to falling
exactly when `b + 5 ≥ 100`; falling with `b < 5` goes to 10 and turns to rising;
falling with `b ≥ 5` goes to `b - 5` and stays falling. -/
def breathe_step_spec (b : Nat) (rising : Bool) : Nat × Bool :=
  if rising then
    (min (b + 5) 100, !decide (b + 5 ≥ 100))
  else if b < 5 then
    (10, true)
  else
    (b - 5, false)

/-! ## The LED device -/

/-- What the LED device answers while a handler runs. -/
structure LedDevice where
  /-- The result of `device_is_ready(indiled_dev)`. -/
  ready : Bool
  /-- The return value of `led_set_brightness(indiled_dev, i, level)`, by
  channel `i` and `level`. -/
  led_set_brightness : Nat → Nat → Int

/-- What a handler run does to the outside, with `set_led_brightness` expanded
into its device calls and log lines. -/
inductive Effect where
  | log_not_ready
  | led_set_brightness (led : Nat) (level : Nat)
  | log_set_failed (led : Nat) (err : Int)
  | k_work_init_delayable (w : Work)
  | k_work_cancel_delayable (w : Work)
  | k_work_reschedule (w : Work) (ms : Nat)
deriving DecidableEq, Repr

/-- The `for` loop of `set_led_brightness` (lines 56-61), at index `i` with
`remaining` iterations to go. -/
def set_led_loop (dev : LedDevice) (level : Nat) : Nat → Nat → List Effect
  | 0, _ => []
  | remaining + 1, i =>
    let err := dev.led_set_brightness i level
    (Effect.led_set_brightness i level
        :: (if err < 0 then [Effect.log_set_failed i err] else []))
      ++ set_led_loop dev level remaining (i + 1)

/-- Embedding of `set_led_brightness` (lines 51-62); `num_leds` is
`INDICATOR_LED_NUM_LEDS`, the number of children of the chosen devicetree
node. -/
def set_led_brightness (dev : LedDevice) (num_leds : Nat) (level : Nat) : List Effect :=
  if !dev.ready then
    [Effect.log_not_ready]
  else
    set_led_loop dev level num_leds 0

/-- One call of a handler, carried out on the device. -/
def perform (dev : LedDevice) (num_leds : Nat) : Action → List Effect
  | Action.set_led_brightness level => set_led_brightness dev num_leds level
  | Action.k_work_init_delayable w => [Effect.k_work_init_delayable w]
  | Action.k_work_cancel_delayable w => [Effect.k_work_cancel_delayable w]
  | Action.k_work_reschedule w ms => [Effect.k_work_reschedule w ms]

/-- The calls of a handler, carried out on the device in order. -/
def perform_all (dev : LedDevice) (num_leds : Nat) : List Action → List Effect
  | [] => []
  | a :: rest => perform dev num_leds a ++ perform_all dev num_leds rest

/-- The run of `polling_work_handler` on a device. -/
def polling_work_handler_on (dev : LedDevice) (num_leds : Nat) (s : ControllerState)
    (inp : PollInput) : ControllerState × List Effect :=
  ((polling_work_handler s inp).1, perform_all dev num_leds (polling_work_handler s inp).2)

/-- The run of `blink_work_handler` on a device. -/
def blink_work_handler_on (dev : LedDevice) (num_leds : Nat) (s : ControllerState) :
    ControllerState × List Effect :=
  ((blink_work_handler s).1, perform_all dev num_leds (blink_work_handler s).2)

/-- The run of `cycle_work_handler` on a device. -/
def cycle_work_handler_on (dev : LedDevice) (num_leds : Nat) (s : ControllerState) :
    ControllerState × List Effect :=
  ((cycle_work_handler s).1, perform_all dev num_leds (cycle_work_handler s).2)

/-- The channel writes among the effects, as (channel, level), in order. -/
def led_writes : List Effect → List (Nat × Nat)
  | [] => []
  | Effect.led_set_brightness led level :: rest => (led, level) :: led_writes rest
  | _ :: rest => led_writes rest

/-- The work-queue calls among the effects, in order. -/
def work_calls : List Effect → List Action
  | [] => []
  | Effect.k_work_init_delayable w :: rest => Action.k_work_init_delayable w :: work_calls rest
  | Effect.k_work_cancel_delayable w :: rest =>
    Action.k_work_cancel_delayable w :: work_calls rest
  | Effect.k_work_reschedule w ms :: rest => Action.k_work_reschedule w ms :: work_calls rest
  | _ :: rest => work_calls rest

/-- The work-queue calls among the calls of a handler, in order. -/
def timer_calls : List Action → List Action
  | [] => []
  | Action.set_led_brightness _ :: rest => timer_calls rest
  | a :: rest => a :: timer_calls rest

/-! ## Executions with stale firings -/

/-- One event, whether or not the timer is pending: the new system and the
calls made. -/
def step (sys : System) : Event → System × List Action
  | Event.poll inp => (poll_tick sys inp, (polling_work_handler sys.state inp).2)
  | Event.blink => (blink_tick sys, (blink_work_handler sys.state).2)
  | Event.cycle => (cycle_tick sys, (cycle_work_handler sys.state).2)

/-- A sequence of events, from left to right: the final system and all the
calls made. -/
def exec (sys : System) : List Event → System × List Action
  | [] => (sys, [])
  | e :: es => ((exec (step sys e).1 es).1, (step sys e).2 ++ (exec (step sys e).1 es).2)

/-! ## Helper lemmas -/

theorem polling_work_handler_same (s : ControllerState) (inp : PollInput)
    (hl : inp.current_layer = s.prev_layer) (ha : inp.active = s.prev_active) :
    polling_work_handler s inp = (s, [Action.k_work_reschedule Work.polling_work 100]) := by
  simp [polling_work_handler, hl, ha]

theorem polling_work_handler_changed (s : ControllerState) (inp : PollInput)
    (ht : inp.current_layer ≠ s.prev_layer ∨ inp.active ≠ s.prev_active) :
    polling_work_handler s inp
      = ((poll_transition s inp.active inp.current_layer (rgb_on inp)).1,
         (poll_transition s inp.active inp.current_layer (rgb_on inp)).2
           ++ [Action.k_work_reschedule Work.polling_work 100]) := by
  simp only [polling_work_handler, if_pos ht]

theorem poll_transition_layer0 (s : ControllerState) (active rgb : Bool) :
    poll_transition s active 0 rgb
      = ({ s with prev_layer := 0, prev_active := active, blink_on := false,
                  cycle_brightness := 10, cycle_direction_up := true },
         [Action.k_work_cancel_delayable Work.blink_work,
          Action.k_work_cancel_delayable Work.cycle_work,
          Action.set_led_brightness (if rgb && active then 90 else 0)]) := by
  simp [poll_transition, CYCLE_BRT_MIN, BRT_MAX]

theorem poll_transition_layer1 (s : ControllerState) (active rgb : Bool) :
    poll_transition s active 1 rgb
      = ({ s with prev_layer := 1, prev_active := active, blink_on := !rgb,
                  blink_start_high := !rgb,
                  cycle_brightness := 10, cycle_direction_up := true },
         [Action.k_work_cancel_delayable Work.blink_work,
          Action.k_work_cancel_delayable Work.cycle_work,
          Action.set_led_brightness (if rgb then 10 else 100),
          Action.k_work_reschedule Work.blink_work 250]) := by
  cases rgb <;>
    simp [poll_transition, CYCLE_BRT_MIN, BRT_BLINK_HIGH, BRT_BLINK_LOW, BLINK_INTERVAL_MS]

theorem poll_transition_layer2 (s : ControllerState) (active rgb : Bool) :
    poll_transition s active 2 rgb
      = ({ s with prev_layer := 2, prev_active := active, blink_on := false,
                  cycle_brightness := 10, cycle_direction_up := true },
         [Action.k_work_cancel_delayable Work.blink_work,
          Action.k_work_cancel_delayable Work.cycle_work,
          Action.k_work_reschedule Work.cycle_work 100]) := by
  simp [poll_transition, CYCLE_BRT_MIN]

theorem poll_transition_layer3 (s : ControllerState) (active rgb : Bool) :
    poll_transition s active 3 rgb
      = ({ s with prev_layer := 3, prev_active := active, blink_on := false,
                  cycle_brightness := 10, cycle_direction_up := true },
         [Action.k_work_cancel_delayable Work.blink_work,
          Action.k_work_cancel_delayable Work.cycle_work,
          Action.set_led_brightness 10,
          Action.k_work_reschedule Work.blink_work 250]) := by
  simp [poll_transition, CYCLE_BRT_MIN, BRT_BLINK_LOW, BLINK_INTERVAL_MS]

theorem poll_transition_other (s : ControllerState) (active rgb : Bool) (layer : Int)
    (h0 : layer ≠ 0) (h1 : layer ≠ 1) (h2 : layer ≠ 2) (h3 : layer ≠ 3) :
    poll_transition s active layer rgb
      = ({ s with prev_layer := layer, prev_active := active, blink_on := false,
                  cycle_brightness := 10, cycle_direction_up := true },
         [Action.k_work_cancel_delayable Work.blink_work,
          Action.k_work_cancel_delayable Work.cycle_work,
          Action.set_led_brightness 0]) := by
  simp [poll_transition, CYCLE_BRT_MIN, h0, h1, h2, h3]

theorem cycle_advance_prev_layer (s : ControllerState) :
    (cycle_advance s).prev_layer = s.prev_layer := by
  simp only [cycle_advance]
  split_ifs <;> rfl

theorem timers_match_layer_init (device_ready active : Bool) :
    timers_match_layer (system_init device_ready active) := by
  cases device_ready <;>
    simp [timers_match_layer, system_init, middlebacklight_init, boot_system, apply_actions,
      apply_action, Timers.set]

theorem timers_match_layer_poll (sys : System) (inp : PollInput)
    (h : timers_match_layer sys) : timers_match_layer (poll_tick sys inp) := by
  obtain ⟨hb, hc⟩ := h
  by_cases ht : inp.current_layer ≠ sys.state.prev_layer ∨ inp.active ≠ sys.state.prev_active
  · simp only [timers_match_layer, poll_tick, polling_work_handler_changed _ _ ht]
    by_cases h0 : inp.current_layer = 0
    · simp [h0, poll_transition_layer0, apply_actions, apply_action, Timers.set]
    by_cases h1 : inp.current_layer = 1
    · simp [h1, poll_transition_layer1, apply_actions, apply_action, Timers.set]
    by_cases h2 : inp.current_layer = 2
    · simp [h2, poll_transition_layer2, apply_actions, apply_action, Timers.set]
    by_cases h3 : inp.current_layer = 3
    · simp [h3, poll_transition_layer3, apply_actions, apply_action, Timers.set]
    · simp [poll_transition_other _ _ _ _ h0 h1 h2 h3, apply_actions, apply_action,
        Timers.set]
  · have hl : inp.current_layer = sys.state.prev_layer := by
      by_contra hcon; exact ht (Or.inl hcon)
    have ha : inp.active = sys.state.prev_active := by
      by_contra hcon; exact ht (Or.inr hcon)
    simp only [timers_match_layer, poll_tick, polling_work_handler_same _ _ hl ha]
    simpa [apply_actions, apply_action, Timers.set] using And.intro hb hc

theorem timers_match_layer_blink (sys : System) (h : timers_match_layer sys) :
    timers_match_layer (blink_tick sys) := by
  obtain ⟨hb, hc⟩ := h
  by_cases hg : sys.state.prev_layer ≠ 1 ∧ sys.state.prev_layer ≠ 3
  · simp only [timers_match_layer, blink_tick, blink_work_handler, if_pos hg]
    simpa [apply_actions, apply_action, Timers.set] using hc
  · have h13 : sys.state.prev_layer = 1 ∨ sys.state.prev_layer = 3 := by
      by_contra hcon
      exact hg ⟨fun e => hcon (Or.inl e), fun e => hcon (Or.inr e)⟩
    simp only [timers_match_layer, blink_tick, blink_work_handler, if_neg hg, apply_actions,
      apply_action, Timers.set, List.foldl]
    refine ⟨fun _ => h13, ?_⟩
    simpa using hc

theorem timers_match_layer_cycle (sys : System) (h : timers_match_layer sys) :
    timers_match_layer (cycle_tick sys) := by
  obtain ⟨hb, hc⟩ := h
  by_cases hg : sys.state.prev_layer ≠ 2
  · simp only [timers_match_layer, cycle_tick, cycle_work_handler, if_pos hg]
    simpa [apply_actions, apply_action, Timers.set] using hb
  · have h2 : sys.state.prev_layer = 2 := not_not.mp hg
    simp only [timers_match_layer, cycle_tick, cycle_work_handler, if_neg hg, apply_actions,
      apply_action, Timers.set, List.foldl, cycle_advance_prev_layer]
    refine ⟨?_, fun _ => h2⟩
    intro hbs
    exact hb (by simpa using hbs)

theorem timers_match_layer_fire (sys sys1 : System) (e : Event)
    (h : timers_match_layer sys) (hf : fire sys e = some sys1) : timers_match_layer sys1 := by
  cases e with
  | poll inp =>
    simp only [fire, Option.some.injEq] at hf
    subst hf
    exact timers_match_layer_poll sys inp h
  | blink =>
    simp only [fire] at hf
    split_ifs at hf
    simp only [Option.some.injEq] at hf
    subst hf
    exact timers_match_layer_blink sys h
  | cycle =>
    simp only [fire] at hf
    split_ifs at hf
    simp only [Option.some.injEq] at hf
    subst hf
    exact timers_match_layer_cycle sys h

theorem timers_match_layer_run (evs : List Event) :
    ∀ (sys sys1 : System), timers_match_layer sys → run sys evs = some sys1 →
      timers_match_layer sys1 := by
  induction evs with
  | nil =>
    intro sys sys1 h hr
    simp only [run, Option.some.injEq] at hr
    subst hr
    exact h
  | cons e es ih =>
    intro sys sys1 h hr
    simp only [run] at hr
    cases hf : fire sys e with
    | none => rw [hf] at hr; cases hr
    | some sys2 =>
      rw [hf] at hr
      exact ih sys2 sys1 (timers_match_layer_fire sys sys2 e h hf) hr

/-- In the calls of a poller run, every re-arming of the blink or the breathe
timer comes after the cancellation of both. -/
theorem poll_arms_after_cancel (s : ControllerState) (inp : PollInput)
    (pre post : List Action) (w : Work) (ms : Nat)
    (hsplit : (polling_work_handler s inp).2 = pre ++ Action.k_work_reschedule w ms :: post)
    (hw : w ≠ Work.polling_work) :
    Action.k_work_cancel_delayable Work.blink_work ∈ pre ∧
    Action.k_work_cancel_delayable Work.cycle_work ∈ pre := by
  by_cases ht : inp.current_layer ≠ s.prev_layer ∨ inp.active ≠ s.prev_active
  · rw [polling_work_handler_changed _ _ ht] at hsplit
    simp only [poll_transition] at hsplit
    rcases pre with _ | ⟨a, _ | ⟨b, pre2⟩⟩
    · exfalso
      split_ifs at hsplit <;> simp at hsplit
    · exfalso
      split_ifs at hsplit <;> simp at hsplit
    · have hab : a = Action.k_work_cancel_delayable Work.blink_work ∧
          b = Action.k_work_cancel_delayable Work.cycle_work := by
        split_ifs at hsplit <;> simp at hsplit <;> exact ⟨hsplit.1.symm, hsplit.2.1.symm⟩
      obtain ⟨ha, hb⟩ := hab
      subst ha hb
      simp
  · have hl : inp.current_layer = s.prev_layer := by
      by_contra hcon; exact ht (Or.inl hcon)
    have ha : inp.active = s.prev_active := by
      by_contra hcon; exact ht (Or.inr hcon)
    rw [polling_work_handler_same _ _ hl ha] at hsplit
    exfalso
    rcases pre with _ | ⟨a, pre2⟩
    · simp at hsplit
      exact hw hsplit.1.1.symm
    · simp at hsplit

theorem blink_work_handler_active (s : ControllerState)
    (h : s.prev_layer = 1 ∨ s.prev_layer = 3) :
    blink_work_handler s
      = ({ s with blink_on := !s.blink_on },
         [Action.set_led_brightness (if s.blink_on then 10 else 100),
          Action.k_work_reschedule Work.blink_work (if s.prev_layer = 3 then 250 else 500)]) := by
  rcases h with h | h <;> cases hb : s.blink_on <;>
    simp [blink_work_handler, h, hb, BRT_BLINK_HIGH, BRT_BLINK_LOW, BLINK_INTERVAL_MS]

theorem blink_run_active (s : ControllerState) (h : s.prev_layer = 1 ∨ s.prev_layer = 3)
    (n : Nat) : blink_run s n = { s with blink_on := xor s.blink_on n.bodd } := by
  induction n with
  | zero => simp [blink_run]
  | succ k ih =>
    have hk : (blink_run s k).prev_layer = 1 ∨ (blink_run s k).prev_layer = 3 := by
      rw [ih]; exact h
    rw [blink_run, blink_work_handler_active _ hk, ih]
    cases h1 : s.blink_on <;> cases h2 : k.bodd <;> simp [h1, h2]

theorem blink_calls_active (s : ControllerState) (h : s.prev_layer = 1 ∨ s.prev_layer = 3)
    (k : Nat) :
    blink_calls s (k + 1)
      = [Action.set_led_brightness (if xor s.blink_on k.bodd then 10 else 100),
         Action.k_work_reschedule Work.blink_work (if s.prev_layer = 3 then 250 else 500)] := by
  have hk : (blink_run s k).prev_layer = 1 ∨ (blink_run s k).prev_layer = 3 := by
    rw [blink_run_active s h]; exact h
  rw [blink_calls, blink_work_handler_active _ hk, blink_run_active s h]

theorem odd_iff_bodd (n : Nat) : n % 2 = 1 ↔ n.bodd = true := by
  rw [Nat.mod_two_of_bodd]
  cases n.bodd <;> simp

theorem cycle_work_handler_congr (s t : ControllerState)
    (hl : s.prev_layer = t.prev_layer) (hb : s.cycle_brightness = t.cycle_brightness)
    (hu : s.cycle_direction_up = t.cycle_direction_up) :
    (cycle_work_handler s).2 = (cycle_work_handler t).2 ∧
    (cycle_work_handler s).1.prev_layer = (cycle_work_handler t).1.prev_layer ∧
    (cycle_work_handler s).1.cycle_brightness = (cycle_work_handler t).1.cycle_brightness ∧
    (cycle_work_handler s).1.cycle_direction_up
      = (cycle_work_handler t).1.cycle_direction_up := by
  simp only [cycle_work_handler, cycle_advance, hl, hb, hu]
  split_ifs <;> simp [hl, hb, hu]

theorem cycle_run_congr (s t : ControllerState)
    (hl : s.prev_layer = t.prev_layer) (hb : s.cycle_brightness = t.cycle_brightness)
    (hu : s.cycle_direction_up = t.cycle_direction_up) (n : Nat) :
    (cycle_run s n).prev_layer = (cycle_run t n).prev_layer ∧
    (cycle_run s n).cycle_brightness = (cycle_run t n).cycle_brightness ∧
    (cycle_run s n).cycle_direction_up = (cycle_run t n).cycle_direction_up := by
  induction n with
  | zero => exact ⟨hl, hb, hu⟩
  | succ k ih =>
    obtain ⟨h1, h2, h3⟩ := ih
    exact (cycle_work_handler_congr _ _ h1 h2 h3).2

theorem cycle_calls_congr (s t : ControllerState)
    (hl : s.prev_layer = t.prev_layer) (hb : s.cycle_brightness = t.cycle_brightness)
    (hu : s.cycle_direction_up = t.cycle_direction_up) (n : Nat) :
    cycle_calls s n = cycle_calls t n := by
  cases n with
  | zero => rfl
  | succ k =>
    obtain ⟨h1, h2, h3⟩ := cycle_run_congr s t hl hb hu k
    exact (cycle_work_handler_congr _ _ h1 h2 h3).1

theorem cycle_trace_congr (s t : ControllerState)
    (hl : s.prev_layer = t.prev_layer) (hb : s.cycle_brightness = t.cycle_brightness)
    (hu : s.cycle_direction_up = t.cycle_direction_up) (n : Nat) :
    cycle_trace s n = cycle_trace t n := by
  induction n with
  | zero => rfl
  | succ k ih => rw [cycle_trace, cycle_trace, ih, cycle_calls_congr s t hl hb hu]

theorem cycle_run_prev_layer (s : ControllerState) (n : Nat) :
    (cycle_run s n).prev_layer = s.prev_layer := by
  induction n with
  | zero => rfl
  | succ k ih =>
    rw [cycle_run, ← ih]
    simp only [cycle_work_handler]
    split_ifs
    · rfl
    · exact cycle_advance_prev_layer _

theorem cycle_calls_shape (s : ControllerState) (h : s.prev_layer = 2) (k : Nat) :
    cycle_calls s (k + 1)
      = [Action.set_led_brightness (cycle_run s k).cycle_brightness,
         Action.k_work_reschedule Work.cycle_work 20] := by
  have hk : (cycle_run s k).prev_layer = 2 := by rw [cycle_run_prev_layer, h]
  simp [cycle_calls, cycle_work_handler, hk, CYCLE_INTERVAL_MS]

/-- The local `rgb_on` in terms of the readings: it is `false` exactly when the
underglow feature is compiled in, the query succeeds and reports off. -/
theorem rgb_on_eq_not_off (inp : PollInput) :
    rgb_on inp
      = !decide (inp.underglow_enabled = true ∧ 0 ≤ inp.underglow_ret
          ∧ inp.underglow_state = false) := by
  by_cases hret : inp.underglow_ret < 0
  · have hnot : ¬ 0 ≤ inp.underglow_ret := not_le.mpr hret
    cases he : inp.underglow_enabled <;> simp [rgb_on, he, hret, hnot]
  · have hle : 0 ≤ inp.underglow_ret := not_lt.mp hret
    cases he : inp.underglow_enabled <;> cases hs : inp.underglow_state <;>
      simp [rgb_on, he, hs, hret, hle]

/-! ## Claims -/

/-- C1 (fails on the code): starting from `cycle_brightness = 10`, rising, with
`prev_layer = 2`, the 37th consecutive run of `cycle_work_handler` emits 10 and
stores 5, the 38th emits 5 and stores 0, the 39th emits 0 and only then resets
to 10: the emitted and the stored brightness do not stay within `[10, 100]`. -/
theorem C1_breathe_leaves_range :
    breathe_start.prev_layer = 2 ∧ breathe_start.cycle_brightness = 10 ∧
    breathe_start.cycle_direction_up = true ∧
    emitted (cycle_calls breathe_start 37) = [10] ∧
    (cycle_run breathe_start 37).cycle_brightness = 5 ∧
    emitted (cycle_calls breathe_start 38) = [5] ∧
    (cycle_run breathe_start 38).cycle_brightness = 0 ∧
    emitted (cycle_calls breathe_start 39) = [0] ∧
    (cycle_run breathe_start 39).cycle_brightness = 10 ∧
    ¬ (∀ (s : ControllerState), s.prev_layer = 2 → s.cycle_brightness = 10 →
        s.cycle_direction_up = true → ∀ n : Nat, 1 ≤ n →
        (∀ level ∈ emitted (cycle_calls s n), 10 ≤ level ∧ level ≤ 100) ∧
        10 ≤ (cycle_run s n).cycle_brightness ∧ (cycle_run s n).cycle_brightness ≤ 100) := by
  refine ⟨by decide, by decide, by decide, by decide, by decide, by decide, by decide,
    by decide, by decide, ?_⟩
  intro h
  have h37 := (h breathe_start (by decide) (by decide) (by decide) 37 (by decide)).2.1
  revert h37
  decide

/-- C2: in every state reached from `middlebacklight_init` (device ready or
not, any activity reading) by poller ticks with arbitrary readings and firings
of pending blink and breathe timers, the blink and the breathe timer are not
both pending; and in the calls of any poller run from that state, a re-arming
of the blink or the breathe timer is preceded by the cancellation of both. -/
theorem C2_exclusive_pattern (device_ready active : Bool) (evs : List Event) (sys : System)
    (hrun : run (system_init device_ready active) evs = some sys) :
    ¬ (sys.timers.blink_work.isSome = true ∧ sys.timers.cycle_work.isSome = true) ∧
    ∀ (inp : PollInput) (pre post : List Action) (w : Work) (ms : Nat),
      (polling_work_handler sys.state inp).2 = pre ++ Action.k_work_reschedule w ms :: post →
      w ≠ Work.polling_work →
      Action.k_work_cancel_delayable Work.blink_work ∈ pre ∧
      Action.k_work_cancel_delayable Work.cycle_work ∈ pre := by
  have hinv := timers_match_layer_run evs _ sys
    (timers_match_layer_init device_ready active) hrun
  refine ⟨?_, ?_⟩
  · rintro ⟨hb, hc⟩
    have h2 := hinv.2 hc
    rcases hinv.1 hb with h1 | h3
    · rw [h2] at h1; exact absurd h1 (by decide)
    · rw [h2] at h3; exact absurd h3 (by decide)
  · intro inp pre post w ms hsplit hw
    exact poll_arms_after_cancel sys.state inp pre post w ms hsplit hw

/-- Witness for C2: after init with the device ready, a tick into layer 1, one
blink firing, a tick into layer 2 and one breathe firing, only the breathe timer
is pending; a further tick into layer 3 arms the blink timer after both
cancellations. -/
theorem C2_exclusive_pattern_witness :
    (run (system_init true true)
        [Event.poll ⟨true, 1, true, 0, false⟩, Event.blink,
         Event.poll ⟨true, 2, true, 0, false⟩, Event.cycle]
      = some ⟨⟨true, 2, false, true, 15, true⟩, ⟨some 100, none, some 20⟩⟩) ∧
    ¬ ((none : Option Nat).isSome = true ∧ (some 20).isSome = true) ∧
    (Action.k_work_cancel_delayable Work.blink_work
        ∈ [Action.k_work_cancel_delayable Work.blink_work,
           Action.k_work_cancel_delayable Work.cycle_work,
           Action.set_led_brightness 10] ∧
      Action.k_work_cancel_delayable Work.cycle_work
        ∈ [Action.k_work_cancel_delayable Work.blink_work,
           Action.k_work_cancel_delayable Work.cycle_work,
           Action.set_led_brightness 10]) :=
  have hrun : run (system_init true true)
        [Event.poll ⟨true, 1, true, 0, false⟩, Event.blink,
         Event.poll ⟨true, 2, true, 0, false⟩, Event.cycle]
      = some ⟨⟨true, 2, false, true, 15, true⟩, ⟨some 100, none, some 20⟩⟩ := by decide
  ⟨hrun,
   (C2_exclusive_pattern true true _ _ hrun).1,
   (C2_exclusive_pattern true true _ _ hrun).2 ⟨true, 3, true, 0, false⟩
     [Action.k_work_cancel_delayable Work.blink_work,
      Action.k_work_cancel_delayable Work.cycle_work,
      Action.set_led_brightness 10]
     [Action.k_work_reschedule Work.polling_work 100] Work.blink_work 250 (by decide)
     (by decide)⟩

/-- C3: a poller run whose sampled layer and activity equal the stored ones
returns the state unchanged and makes exactly one call, the re-arming of the
poller after 100 ms: nothing is emitted, and the blink and breathe timers are
neither cancelled nor armed, so they stay as they were. -/
theorem C3_noop_tick (s : ControllerState) (inp : PollInput)
    (hl : inp.current_layer = s.prev_layer) (ha : inp.active = s.prev_active) :
    polling_work_handler s inp = (s, [Action.k_work_reschedule Work.polling_work 100]) ∧
    emitted (polling_work_handler s inp).2 = [] ∧
    (∀ w : Work, Action.k_work_cancel_delayable w ∉ (polling_work_handler s inp).2) ∧
    (∀ (w : Work) (ms : Nat), Action.k_work_reschedule w ms ∈ (polling_work_handler s inp).2 →
      w = Work.polling_work ∧ ms = 100) ∧
    (∀ t : Timers, (poll_tick ⟨s, t⟩ inp).state = s ∧
      (poll_tick ⟨s, t⟩ inp).timers.blink_work = t.blink_work ∧
      (poll_tick ⟨s, t⟩ inp).timers.cycle_work = t.cycle_work ∧
      (poll_tick ⟨s, t⟩ inp).timers.polling_work = some 100) := by
  have h : polling_work_handler s inp
      = (s, [Action.k_work_reschedule Work.polling_work 100]) := by
    simp [polling_work_handler, hl, ha]
  refine ⟨h, ?_, ?_, ?_, ?_⟩
  · rw [h]; rfl
  · intro w; rw [h]; simp
  · intro w ms; rw [h]; simp
  · intro t
    simp [poll_tick, h, apply_actions, apply_action, Timers.set]

/-- Witness for C3: layer 1 and active sampled again in a state that already
stores layer 1 and active. -/
theorem C3_noop_tick_witness :
    polling_work_handler
        { prev_active := true, prev_layer := 1, blink_on := true, blink_start_high := true,
          cycle_brightness := 10, cycle_direction_up := true }
        { active := true, current_layer := 1, underglow_enabled := true, underglow_ret := 0,
          underglow_state := false }
      = ({ prev_active := true, prev_layer := 1, blink_on := true, blink_start_high := true,
           cycle_brightness := 10, cycle_direction_up := true },
         [Action.k_work_reschedule Work.polling_work 100]) :=
  (C3_noop_tick _ _ rfl rfl).1

/-- The layer 1 blink pattern in terms of the poller's local `rgb_on`. -/
theorem layer1_blink_by_rgb (s : ControllerState) (inp : PollInput)
    (ht : inp.current_layer ≠ s.prev_layer ∨ inp.active ≠ s.prev_active)
    (h1 : inp.current_layer = 1) :
    (polling_work_handler s inp).2
      = [Action.k_work_cancel_delayable Work.blink_work,
         Action.k_work_cancel_delayable Work.cycle_work,
         Action.set_led_brightness (if rgb_on inp then 10 else 100),
         Action.k_work_reschedule Work.blink_work 250,
         Action.k_work_reschedule Work.polling_work 100] ∧
    (polling_work_handler s inp).1.blink_on = (!rgb_on inp) ∧
    (∀ t : Timers, (poll_tick ⟨s, t⟩ inp).timers.blink_work = some 250 ∧
      (poll_tick ⟨s, t⟩ inp).timers.cycle_work = none) ∧
    (∀ n : Nat, (blink_run (polling_work_handler s inp).1 n).prev_layer = 1) ∧
    (∀ n : Nat, 1 ≤ n →
      blink_calls (polling_work_handler s inp).1 n
        = [Action.set_led_brightness
             (if rgb_on inp = decide (n % 2 = 1) then 100 else 10),
           Action.k_work_reschedule Work.blink_work 500]) ∧
    emitted (blink_calls (polling_work_handler s inp).1 1)
      = (emitted (polling_work_handler s inp).2).map opposite_level ∧
    (∀ n : Nat, 1 ≤ n →
      emitted (blink_calls (polling_work_handler s inp).1 (n + 1))
        = (emitted (blink_calls (polling_work_handler s inp).1 n)).map opposite_level) := by
  have hst : (polling_work_handler s inp).1
      = { s with prev_layer := 1, prev_active := inp.active, blink_on := !rgb_on inp,
                 blink_start_high := !rgb_on inp,
                 cycle_brightness := 10, cycle_direction_up := true } := by
    rw [polling_work_handler_changed _ _ ht, h1, poll_transition_layer1]
  have hacts : (polling_work_handler s inp).2
      = [Action.k_work_cancel_delayable Work.blink_work,
         Action.k_work_cancel_delayable Work.cycle_work,
         Action.set_led_brightness (if rgb_on inp then 10 else 100),
         Action.k_work_reschedule Work.blink_work 250,
         Action.k_work_reschedule Work.polling_work 100] := by
    rw [polling_work_handler_changed _ _ ht, h1, poll_transition_layer1]
    rfl
  have hl : (polling_work_handler s inp).1.prev_layer = 1
      ∨ (polling_work_handler s inp).1.prev_layer = 3 := by
    rw [hst]; exact Or.inl rfl
  have hcalls : ∀ k : Nat, blink_calls (polling_work_handler s inp).1 (k + 1)
      = [Action.set_led_brightness (if xor (!rgb_on inp) k.bodd then 10 else 100),
         Action.k_work_reschedule Work.blink_work 500] := by
    intro k
    rw [blink_calls_active _ hl k, hst]
    simp
  refine ⟨hacts, by rw [hst], ?_, ?_, ?_, ?_, ?_⟩
  · intro t
    simp [poll_tick, hacts, apply_actions, apply_action, Timers.set]
  · intro n
    rw [blink_run_active _ hl n, hst]
  · intro n hn
    obtain ⟨k, rfl⟩ : ∃ k, n = k + 1 := ⟨n - 1, by omega⟩
    rw [hcalls k]
    have hodd : ((k + 1) % 2 = 1) ↔ k.bodd = false := by
      rw [odd_iff_bodd, Nat.bodd_succ]
      cases k.bodd <;> simp
    cases hr : rgb_on inp <;> cases hk : k.bodd <;> simp [hodd, hk]
  · rw [hcalls 0, hacts]
    cases hr : rgb_on inp <;>
      simp [emitted, opposite_level, BRT_BLINK_HIGH, BRT_BLINK_LOW]
  · intro n hn
    obtain ⟨k, rfl⟩ : ∃ k, n = k + 1 := ⟨n - 1, by omega⟩
    rw [hcalls (k + 1), hcalls k, Nat.bodd_succ]
    cases hr : rgb_on inp <;> cases hk : k.bodd <;>
      simp [emitted, opposite_level, BRT_BLINK_HIGH, BRT_BLINK_LOW]

/-- C4: a poller run that detects a transition into layer 1 cancels both
timers, emits 100 when the underglow is off (feature compiled in, query
succeeded, state reported off) and 10 when it is on (reported on, or the query
failed, or the feature is compiled out), stores `blink_on` as "underglow off",
and arms the blink timer with 250 ms. From the resulting state the stored layer
stays 1 under blink runs, and for every `n ≥ 1` the `n`-th consecutive run of
`blink_work_handler` emits the opposite of the level emitted just before (with
the underglow off the odd runs emit 10 and the even runs 100, with it on the
other way round) and re-arms the blink timer with 500 ms. -/
theorem C4_layer1_blink (s : ControllerState) (inp : PollInput)
    (ht : inp.current_layer ≠ s.prev_layer ∨ inp.active ≠ s.prev_active)
    (h1 : inp.current_layer = 1) :
    (polling_work_handler s inp).2
      = [Action.k_work_cancel_delayable Work.blink_work,
         Action.k_work_cancel_delayable Work.cycle_work,
         Action.set_led_brightness
           (if inp.underglow_enabled = true ∧ 0 ≤ inp.underglow_ret
               ∧ inp.underglow_state = false then 100 else 10),
         Action.k_work_reschedule Work.blink_work 250,
         Action.k_work_reschedule Work.polling_work 100] ∧
    (polling_work_handler s inp).1.blink_on
      = decide (inp.underglow_enabled = true ∧ 0 ≤ inp.underglow_ret
          ∧ inp.underglow_state = false) ∧
    (∀ t : Timers, (poll_tick ⟨s, t⟩ inp).timers.blink_work = some 250 ∧
      (poll_tick ⟨s, t⟩ inp).timers.cycle_work = none) ∧
    (∀ n : Nat, (blink_run (polling_work_handler s inp).1 n).prev_layer = 1) ∧
    (∀ n : Nat, 1 ≤ n →
      blink_calls (polling_work_handler s inp).1 n
        = [Action.set_led_brightness
             (if inp.underglow_enabled = true ∧ 0 ≤ inp.underglow_ret
                 ∧ inp.underglow_state = false then
               (if n % 2 = 1 then 10 else 100)
             else
               (if n % 2 = 1 then 100 else 10)),
           Action.k_work_reschedule Work.blink_work 500]) ∧
    emitted (blink_calls (polling_work_handler s inp).1 1)
      = (emitted (polling_work_handler s inp).2).map opposite_level ∧
    (∀ n : Nat, 1 ≤ n →
      emitted (blink_calls (polling_work_handler s inp).1 (n + 1))
        = (emitted (blink_calls (polling_work_handler s inp).1 n)).map opposite_level) := by
  obtain ⟨hacts, hon, htim, hlayer, hcalls, hfirst, hnext⟩ := layer1_blink_by_rgb s inp ht h1
  have hrgb := rgb_on_eq_not_off inp
  refine ⟨?_, ?_, htim, hlayer, ?_, hfirst, hnext⟩
  · rw [hacts, hrgb]
    by_cases hoff : inp.underglow_enabled = true ∧ 0 ≤ inp.underglow_ret
        ∧ inp.underglow_state = false
    · simp [hoff]
    · simp [hoff]
  · rw [hon, hrgb]
    simp
  · intro n hn
    rw [hcalls n hn, hrgb]
    by_cases hoff : inp.underglow_enabled = true ∧ 0 ≤ inp.underglow_ret
        ∧ inp.underglow_state = false
    · by_cases hodd : n % 2 = 1 <;> simp [hoff, hodd]
    · by_cases hodd : n % 2 = 1 <;> simp [hoff, hodd]

/-- Witness for C4: from the boot state, a tick that reads layer 1 emits 100
when the underglow is reported off and 10 when it is reported on, and with the
underglow off the first blink run emits 10. -/
theorem C4_layer1_blink_witness :
    (polling_work_handler boot_state ⟨true, 1, true, 0, false⟩).2
      = [Action.k_work_cancel_delayable Work.blink_work,
         Action.k_work_cancel_delayable Work.cycle_work,
         Action.set_led_brightness 100,
         Action.k_work_reschedule Work.blink_work 250,
         Action.k_work_reschedule Work.polling_work 100] ∧
    (polling_work_handler boot_state ⟨true, 1, true, 0, true⟩).2
      = [Action.k_work_cancel_delayable Work.blink_work,
         Action.k_work_cancel_delayable Work.cycle_work,
         Action.set_led_brightness 10,
         Action.k_work_reschedule Work.blink_work 250,
         Action.k_work_reschedule Work.polling_work 100] ∧
    blink_calls (polling_work_handler boot_state ⟨true, 1, true, 0, false⟩).1 1
      = [Action.set_led_brightness 10, Action.k_work_reschedule Work.blink_work 500] :=
  ⟨(C4_layer1_blink boot_state ⟨true, 1, true, 0, false⟩ (by decide) (by decide)).1,
   (C4_layer1_blink boot_state ⟨true, 1, true, 0, true⟩ (by decide) (by decide)).1,
   (C4_layer1_blink boot_state ⟨true, 1, true, 0, false⟩ (by decide)
      (by decide)).2.2.2.2.1 1 (by decide)⟩

/-- C5: a poller run that detects a transition into layer 3 cancels both
timers, emits 10 whatever the activity and underglow readings, and arms the
blink timer with 250 ms. From the resulting state the stored layer stays 3 under
blink runs, and for every `n ≥ 1` the `n`-th consecutive run of
`blink_work_handler` emits 100 when `n` is odd and 10 when `n` is even, and
re-arms the blink timer with 250 ms, half of `BLINK_INTERVAL_MS = 500`. -/
theorem C5_layer3_blink (s : ControllerState) (inp : PollInput)
    (ht : inp.current_layer ≠ s.prev_layer ∨ inp.active ≠ s.prev_active)
    (h3 : inp.current_layer = 3) :
    (polling_work_handler s inp).2
      = [Action.k_work_cancel_delayable Work.blink_work,
         Action.k_work_cancel_delayable Work.cycle_work,
         Action.set_led_brightness 10,
         Action.k_work_reschedule Work.blink_work 250,
         Action.k_work_reschedule Work.polling_work 100] ∧
    (∀ t : Timers, (poll_tick ⟨s, t⟩ inp).timers.blink_work = some 250 ∧
      (poll_tick ⟨s, t⟩ inp).timers.cycle_work = none) ∧
    (∀ n : Nat, (blink_run (polling_work_handler s inp).1 n).prev_layer = 3) ∧
    (∀ n : Nat, 1 ≤ n →
      blink_calls (polling_work_handler s inp).1 n
        = [Action.set_led_brightness (if n % 2 = 1 then 100 else 10),
           Action.k_work_reschedule Work.blink_work 250]) ∧
    250 * 2 = BLINK_INTERVAL_MS := by
  have hst : (polling_work_handler s inp).1
      = { s with prev_layer := 3, prev_active := inp.active, blink_on := false,
                 cycle_brightness := 10, cycle_direction_up := true } := by
    rw [polling_work_handler_changed _ _ ht, h3, poll_transition_layer3]
  have hacts : (polling_work_handler s inp).2
      = [Action.k_work_cancel_delayable Work.blink_work,
         Action.k_work_cancel_delayable Work.cycle_work,
         Action.set_led_brightness 10,
         Action.k_work_reschedule Work.blink_work 250,
         Action.k_work_reschedule Work.polling_work 100] := by
    rw [polling_work_handler_changed _ _ ht, h3, poll_transition_layer3]
    rfl
  have hl : (polling_work_handler s inp).1.prev_layer = 1
      ∨ (polling_work_handler s inp).1.prev_layer = 3 := by
    rw [hst]; exact Or.inr rfl
  refine ⟨hacts, ?_, ?_, ?_, by decide⟩
  · intro t
    simp [poll_tick, hacts, apply_actions, apply_action, Timers.set]
  · intro n
    rw [blink_run_active _ hl n, hst]
  · intro n hn
    obtain ⟨k, rfl⟩ : ∃ k, n = k + 1 := ⟨n - 1, by omega⟩
    rw [blink_calls_active _ hl k, hst]
    have hodd : ((k + 1) % 2 = 1) ↔ k.bodd = false := by
      rw [odd_iff_bodd, Nat.bodd_succ]
      cases k.bodd <;> simp
    cases hk : k.bodd <;> simp [hodd, hk]

/-- Witness for C5: from the boot state, a tick that reads layer 3 emits 10 and
arms the blink timer with 250 ms. -/
theorem C5_layer3_blink_witness :
    (polling_work_handler boot_state ⟨false, 3, true, 0, true⟩).2
      = [Action.k_work_cancel_delayable Work.blink_work,
         Action.k_work_cancel_delayable Work.cycle_work,
         Action.set_led_brightness 10,
         Action.k_work_reschedule Work.blink_work 250,
         Action.k_work_reschedule Work.polling_work 100] :=
  (C5_layer3_blink boot_state ⟨false, 3, true, 0, true⟩ (by decide) (by decide)).1

/-- C6: a poller run that detects a transition into layer 2 cancels both
timers, emits nothing, leaves the blink timer not pending and arms the breathe
timer with 100 ms, from `cycle_brightness = 10`, rising. From the resulting
state the stored layer stays 2 under breathe runs, the first 37 consecutive runs
of `cycle_work_handler` emit 10, 15, ..., 100 and then 95, 90, ..., 10, and
every run re-arms the breathe timer with 20 ms. -/
theorem C6_layer2_breathe_start (s : ControllerState) (inp : PollInput)
    (ht : inp.current_layer ≠ s.prev_layer ∨ inp.active ≠ s.prev_active)
    (h2 : inp.current_layer = 2) :
    (polling_work_handler s inp).2
      = [Action.k_work_cancel_delayable Work.blink_work,
         Action.k_work_cancel_delayable Work.cycle_work,
         Action.k_work_reschedule Work.cycle_work 100,
         Action.k_work_reschedule Work.polling_work 100] ∧
    emitted (polling_work_handler s inp).2 = [] ∧
    (∀ t : Timers, (poll_tick ⟨s, t⟩ inp).timers.blink_work = none ∧
      (poll_tick ⟨s, t⟩ inp).timers.cycle_work = some 100) ∧
    (polling_work_handler s inp).1.cycle_brightness = 10 ∧
    (polling_work_handler s inp).1.cycle_direction_up = true ∧
    (∀ n : Nat, (cycle_run (polling_work_handler s inp).1 n).prev_layer = 2) ∧
    emitted (cycle_trace (polling_work_handler s inp).1 37)
      = (List.range 19).map (fun k => 10 + 5 * k)
          ++ (List.range 18).map (fun k => 95 - 5 * k) ∧
    (∀ n : Nat, 1 ≤ n → ∃ level : Nat,
      cycle_calls (polling_work_handler s inp).1 n
        = [Action.set_led_brightness level,
           Action.k_work_reschedule Work.cycle_work 20]) := by
  have hst : (polling_work_handler s inp).1
      = { s with prev_layer := 2, prev_active := inp.active, blink_on := false,
                 cycle_brightness := 10, cycle_direction_up := true } := by
    rw [polling_work_handler_changed _ _ ht, h2, poll_transition_layer2]
  have hacts : (polling_work_handler s inp).2
      = [Action.k_work_cancel_delayable Work.blink_work,
         Action.k_work_cancel_delayable Work.cycle_work,
         Action.k_work_reschedule Work.cycle_work 100,
         Action.k_work_reschedule Work.polling_work 100] := by
    rw [polling_work_handler_changed _ _ ht, h2, poll_transition_layer2]
    rfl
  have hl : (polling_work_handler s inp).1.prev_layer = 2 := by rw [hst]
  refine ⟨hacts, by rw [hacts]; rfl, ?_, by rw [hst], by rw [hst], ?_, ?_, ?_⟩
  · intro t
    simp [poll_tick, hacts, apply_actions, apply_action, Timers.set]
  · intro n
    rw [cycle_run_prev_layer, hl]
  · rw [cycle_trace_congr _ breathe_start (by rw [hst]; rfl) (by rw [hst]; rfl)
      (by rw [hst]; rfl) 37]
    decide
  · intro n hn
    obtain ⟨k, rfl⟩ : ∃ k, n = k + 1 := ⟨n - 1, by omega⟩
    exact ⟨_, cycle_calls_shape _ hl k⟩

/-- Witness for C6: from the boot state, a tick that reads layer 2 emits nothing
and arms the breathe timer with 100 ms. -/
theorem C6_layer2_breathe_start_witness :
    (polling_work_handler boot_state ⟨true, 2, false, 0, true⟩).2
      = [Action.k_work_cancel_delayable Work.blink_work,
         Action.k_work_cancel_delayable Work.cycle_work,
         Action.k_work_reschedule Work.cycle_work 100,
         Action.k_work_reschedule Work.polling_work 100] :=
  (C6_layer2_breathe_start boot_state ⟨true, 2, false, 0, true⟩ (by decide) (by decide)).1

/-- C7: a poller run that detects a transition into layer 0 cancels both
timers and calls `set_led_brightness` exactly once: with 90 when the device is
active and the underglow is on (reported on, or the query failed, or the feature
is compiled out), and with 0 otherwise (so with 0 whenever the device is idle,
and whenever the query succeeds and reports the underglow off); after the tick
neither the blink nor the breathe timer is pending. -/
theorem C7_layer0_static (s : ControllerState) (inp : PollInput)
    (ht : inp.current_layer ≠ s.prev_layer ∨ inp.active ≠ s.prev_active)
    (h0 : inp.current_layer = 0) :
    (polling_work_handler s inp).2
      = [Action.k_work_cancel_delayable Work.blink_work,
         Action.k_work_cancel_delayable Work.cycle_work,
         Action.set_led_brightness
           (if (inp.underglow_enabled = false ∨ inp.underglow_ret < 0
                 ∨ inp.underglow_state = true) ∧ inp.active = true then 90 else 0),
         Action.k_work_reschedule Work.polling_work 100] ∧
    emitted (polling_work_handler s inp).2
      = [if (inp.underglow_enabled = false ∨ inp.underglow_ret < 0
              ∨ inp.underglow_state = true) ∧ inp.active = true then BRT_MAX else 0] ∧
    (inp.active = false → emitted (polling_work_handler s inp).2 = [0]) ∧
    (∀ t : Timers, (poll_tick ⟨s, t⟩ inp).timers.blink_work = none ∧
      (poll_tick ⟨s, t⟩ inp).timers.cycle_work = none) := by
  have hon : rgb_on inp = true ↔
      (inp.underglow_enabled = false ∨ inp.underglow_ret < 0
        ∨ inp.underglow_state = true) := by
    rw [rgb_on_eq_not_off]
    by_cases hret : inp.underglow_ret < 0
    · have hnot : ¬ 0 ≤ inp.underglow_ret := not_le.mpr hret
      simp [hret, hnot]
    · have hle : 0 ≤ inp.underglow_ret := not_lt.mp hret
      cases he : inp.underglow_enabled <;> cases hs : inp.underglow_state <;>
        simp [hret, hle]
  have hacts : (polling_work_handler s inp).2
      = [Action.k_work_cancel_delayable Work.blink_work,
         Action.k_work_cancel_delayable Work.cycle_work,
         Action.set_led_brightness
           (if (inp.underglow_enabled = false ∨ inp.underglow_ret < 0
                 ∨ inp.underglow_state = true) ∧ inp.active = true then 90 else 0),
         Action.k_work_reschedule Work.polling_work 100] := by
    rw [polling_work_handler_changed _ _ ht, h0, poll_transition_layer0]
    simp only [Bool.and_eq_true, hon]
    rfl
  refine ⟨hacts, ?_, ?_, ?_⟩
  · rw [hacts]; rfl
  · intro ha
    rw [hacts]
    simp [ha, emitted]
  · intro t
    simp [poll_tick, hacts, apply_actions, apply_action, Timers.set]

/-- Witness for C7: from the boot state, a tick that reads layer 0 and active
emits 90 when the underglow is reported on, 90 when the query fails, and 0 when
the underglow is reported off. -/
theorem C7_layer0_static_witness :
    emitted (polling_work_handler boot_state ⟨true, 0, true, 0, true⟩).2 = [90] ∧
    emitted (polling_work_handler boot_state ⟨true, 0, true, -5, false⟩).2 = [90] ∧
    emitted (polling_work_handler boot_state ⟨true, 0, true, 0, false⟩).2 = [0] :=
  ⟨(C7_layer0_static boot_state ⟨true, 0, true, 0, true⟩ (by decide) (by decide)).2.1,
   (C7_layer0_static boot_state ⟨true, 0, true, -5, false⟩ (by decide) (by decide)).2.1,
   (C7_layer0_static boot_state ⟨true, 0, true, 0, false⟩ (by decide) (by decide)).2.1⟩

/-- C8: a poller run that detects a transition into a layer other than 0, 1, 2
and 3 (negative values included) cancels both timers and emits exactly 0,
whatever the activity and underglow readings; after the tick neither the blink
nor the breathe timer is pending. -/
theorem C8_undefined_layer_off (s : ControllerState) (inp : PollInput)
    (ht : inp.current_layer ≠ s.prev_layer ∨ inp.active ≠ s.prev_active)
    (h0 : inp.current_layer ≠ 0) (h1 : inp.current_layer ≠ 1)
    (h2 : inp.current_layer ≠ 2) (h3 : inp.current_layer ≠ 3) :
    (polling_work_handler s inp).2
      = [Action.k_work_cancel_delayable Work.blink_work,
         Action.k_work_cancel_delayable Work.cycle_work,
         Action.set_led_brightness 0,
         Action.k_work_reschedule Work.polling_work 100] ∧
    emitted (polling_work_handler s inp).2 = [0] ∧
    (∀ t : Timers, (poll_tick ⟨s, t⟩ inp).timers.blink_work = none ∧
      (poll_tick ⟨s, t⟩ inp).timers.cycle_work = none) := by
  have hacts : (polling_work_handler s inp).2
      = [Action.k_work_cancel_delayable Work.blink_work,
         Action.k_work_cancel_delayable Work.cycle_work,
         Action.set_led_brightness 0,
         Action.k_work_reschedule Work.polling_work 100] := by
    rw [polling_work_handler_changed _ _ ht, poll_transition_other _ _ _ _ h0 h1 h2 h3]
    rfl
  refine ⟨hacts, by rw [hacts]; rfl, ?_⟩
  intro t
  simp [poll_tick, hacts, apply_actions, apply_action, Timers.set]

/-- Witness for C8: from the boot state, a tick that reads layer 7 emits 0 and
arms only the poller. -/
theorem C8_undefined_layer_off_witness :
    (polling_work_handler boot_state ⟨true, 7, true, 0, true⟩).2
      = [Action.k_work_cancel_delayable Work.blink_work,
         Action.k_work_cancel_delayable Work.cycle_work,
         Action.set_led_brightness 0,
         Action.k_work_reschedule Work.polling_work 100] :=
  (C8_undefined_layer_off boot_state ⟨true, 7, true, 0, true⟩ (by decide) (by decide)
    (by decide) (by decide) (by decide)).1

/-- C9: when the stored layer is neither 1 nor 3, a run of `blink_work_handler`
returns the state unchanged and makes exactly one call, `set_led_brightness(0)`:
no timer is re-armed, so the blink timer is no longer pending after its firing
and the other two timers are as they were. -/
theorem C9_blink_self_disarm (s : ControllerState)
    (h1 : s.prev_layer ≠ 1) (h3 : s.prev_layer ≠ 3) :
    blink_work_handler s = (s, [Action.set_led_brightness 0]) ∧
    (∀ t : Timers, (blink_tick ⟨s, t⟩).state = s ∧
      (blink_tick ⟨s, t⟩).timers.blink_work = none ∧
      (blink_tick ⟨s, t⟩).timers.cycle_work = t.cycle_work ∧
      (blink_tick ⟨s, t⟩).timers.polling_work = t.polling_work) := by
  have h : blink_work_handler s = (s, [Action.set_led_brightness 0]) := by
    simp [blink_work_handler, h1, h3]
  refine ⟨h, ?_⟩
  intro t
  simp [blink_tick, h, apply_actions, apply_action, Timers.set]

/-- Witness for C9: a blink firing in a state that stores layer 2. -/
theorem C9_blink_self_disarm_witness :
    blink_work_handler breathe_start = (breathe_start, [Action.set_led_brightness 0]) :=
  (C9_blink_self_disarm breathe_start (by decide) (by decide)).1

/-- C10: when the stored layer is not 2, a run of `cycle_work_handler` returns
the state unchanged (`cycle_brightness` and `cycle_direction_up` included) and
makes exactly one call, `set_led_brightness(0)`: no timer is re-armed, so the
breathe timer is no longer pending after its firing and the other two timers are
as they were. -/
theorem C10_breathe_self_disarm (s : ControllerState) (h2 : s.prev_layer ≠ 2) :
    cycle_work_handler s = (s, [Action.set_led_brightness 0]) ∧
    (∀ t : Timers, (cycle_tick ⟨s, t⟩).state = s ∧
      (cycle_tick ⟨s, t⟩).timers.cycle_work = none ∧
      (cycle_tick ⟨s, t⟩).timers.blink_work = t.blink_work ∧
      (cycle_tick ⟨s, t⟩).timers.polling_work = t.polling_work) := by
  have h : cycle_work_handler s = (s, [Action.set_led_brightness 0]) := by
    simp [cycle_work_handler, h2]
  refine ⟨h, ?_⟩
  intro t
  simp [cycle_tick, h, apply_actions, apply_action, Timers.set]

/-- Witness for C10: a breathe firing in the boot state, which stores layer -1. -/
theorem C10_breathe_self_disarm_witness :
    cycle_work_handler boot_state = (boot_state, [Action.set_led_brightness 0]) :=
  (C10_breathe_self_disarm boot_state (by decide)).1

/-! ## Claims on the breathe wave -/

theorem cycle_run_add (s : ControllerState) (m n : Nat) :
    cycle_run s (m + n) = cycle_run (cycle_run s m) n := by
  induction n with
  | zero => rfl
  | succ k ih => rw [← Nat.add_assoc, cycle_run, cycle_run, ih]

theorem cycle_run_breathe_period (k : Nat) :
    cycle_run breathe_start (k + 39) = cycle_run breathe_start k := by
  have h39 : cycle_run breathe_start 39 = breathe_start := by decide
  rw [Nat.add_comm, cycle_run_add, h39]

theorem cycle_run_breathe_mod (n : Nat) :
    cycle_run breathe_start n = cycle_run breathe_start (n % 39) := by
  induction n using Nat.strong_induction_on with
  | _ n ih =>
    by_cases hn : n < 39
    · rw [Nat.mod_eq_of_lt hn]
    · have hsplit : n = (n - 39) + 39 := by omega
      have hmod : n % 39 = (n - 39) % 39 := by omega
      rw [hmod, ← ih (n - 39) (by omega)]
      conv_lhs => rw [hsplit]
      exact cycle_run_breathe_period (n - 39)

/-- C12 (fails on the code): in the run from `cycle_brightness = 10`, rising,
with `prev_layer = 2`, the direction turns from rising to falling exactly on the
runs whose advanced brightness is 100; but run 37 starts falling at 10 and run
38 starts falling at 5, where subtracting the step gives a value below 10, and
neither turns the direction: it turns back to rising only on run 39, from 0. -/
theorem C12_breathe_flip_below_min_missed :
    (∀ n : Nat, (cycle_run breathe_start n).cycle_direction_up = true →
      ((cycle_run breathe_start (n + 1)).cycle_direction_up = false ↔
        (cycle_run breathe_start n).cycle_brightness + CYCLE_BRT_STEP = CYCLE_BRT_MAX)) ∧
    (cycle_run breathe_start 36).cycle_direction_up = false ∧
    (cycle_run breathe_start 36).cycle_brightness = 10 ∧
    ((10 : Int) - 5 < 10) ∧
    (cycle_run breathe_start 37).cycle_direction_up = false ∧
    (cycle_run breathe_start 37).cycle_brightness = 5 ∧
    (cycle_run breathe_start 38).cycle_direction_up = false ∧
    (cycle_run breathe_start 38).cycle_brightness = 0 ∧
    (cycle_run breathe_start 39).cycle_direction_up = true ∧
    ¬ (∀ n : Nat, (cycle_run breathe_start n).cycle_direction_up = false →
        ((cycle_run breathe_start (n + 1)).cycle_direction_up = true ↔
          ((cycle_run breathe_start n).cycle_brightness : Int) - 5 < 10)) := by
  refine ⟨?_, by decide, by decide, by decide, by decide, by decide, by decide, by decide,
    by decide, ?_⟩
  · intro n
    have hfin : ∀ m : Nat, m < 39 →
        (cycle_run breathe_start m).cycle_direction_up = true →
        ((cycle_work_handler (cycle_run breathe_start m)).1.cycle_direction_up = false ↔
          (cycle_run breathe_start m).cycle_brightness + CYCLE_BRT_STEP = CYCLE_BRT_MAX) := by
      decide
    rw [cycle_run, cycle_run_breathe_mod n]
    exact hfin (n % 39) (Nat.mod_lt n (by decide))
  · intro h
    have h36 := (h 36 (by decide)).2 (by decide)
    revert h36
    decide

/-- C13: with `prev_layer = 2` and `cycle_brightness = b ≤ 100`, a run of
`cycle_work_handler` emits `b`, re-arms the breathe timer with 20 ms, and moves
(brightness, rising) as the reference step says: rising to `min (b + 5) 100`,
turning to falling exactly when `b + 5 ≥ 100`; falling with `b < 5` to 10,
turning to rising; falling with `b ≥ 5` to `b - 5`, staying falling. The other
fields are unchanged. -/
theorem C13_breathe_step_reference (s : ControllerState)
    (hl : s.prev_layer = 2) (hb : s.cycle_brightness ≤ 100) :
    (cycle_work_handler s).2
      = [Action.set_led_brightness s.cycle_brightness,
         Action.k_work_reschedule Work.cycle_work 20] ∧
    ((cycle_work_handler s).1.cycle_brightness, (cycle_work_handler s).1.cycle_direction_up)
      = breathe_step_spec s.cycle_brightness s.cycle_direction_up ∧
    (cycle_work_handler s).1.prev_layer = s.prev_layer ∧
    (cycle_work_handler s).1.prev_active = s.prev_active ∧
    (cycle_work_handler s).1.blink_on = s.blink_on ∧
    (cycle_work_handler s).1.blink_start_high = s.blink_start_high := by
  have hh : cycle_work_handler s
      = (cycle_advance s,
         [Action.set_led_brightness s.cycle_brightness,
          Action.k_work_reschedule Work.cycle_work 20]) := by
    simp [cycle_work_handler, hl, CYCLE_INTERVAL_MS]
  rw [hh]
  refine ⟨rfl, ?_, cycle_advance_prev_layer s, ?_, ?_, ?_⟩
  · simp only [cycle_advance, breathe_step_spec, CYCLE_BRT_STEP, CYCLE_BRT_MAX, CYCLE_BRT_MIN]
    have hmod : (s.cycle_brightness + 5) % 256 = s.cycle_brightness + 5 :=
      Nat.mod_eq_of_lt (by omega)
    rw [hmod]
    cases hu : s.cycle_direction_up
    · by_cases h5 : s.cycle_brightness < 5
      · simp [h5]
      · have hsub : (s.cycle_brightness + 256 - 5) % 256 = s.cycle_brightness - 5 := by omega
        rw [hsub]
        simp [h5]
    · by_cases h100 : s.cycle_brightness + 5 ≥ 100
      · have hmin : min (s.cycle_brightness + 5) 100 = 100 := by omega
        simp [h100, hmin]
      · have hmin : min (s.cycle_brightness + 5) 100 = s.cycle_brightness + 5 := by omega
        simp [h100, hmin]
  · simp only [cycle_advance]; split_ifs <;> rfl
  · simp only [cycle_advance]; split_ifs <;> rfl
  · simp only [cycle_advance]; split_ifs <;> rfl

/-- Witness for C13: the step from (95, rising) goes to (100, falling). -/
theorem C13_breathe_step_reference_witness :
    ((cycle_work_handler ⟨true, 2, false, true, 95, true⟩).1.cycle_brightness,
      (cycle_work_handler ⟨true, 2, false, true, 95, true⟩).1.cycle_direction_up)
      = breathe_step_spec 95 true :=
  (C13_breathe_step_reference ⟨true, 2, false, true, 95, true⟩ (by decide) (by decide)).2.1

/-! ## Claims on transitions, start-up and the underglow reading -/

theorem poll_transition_fields (s : ControllerState) (active rgb : Bool) (layer : Int) :
    (poll_transition s active layer rgb).1.prev_layer = layer ∧
    (poll_transition s active layer rgb).1.prev_active = active ∧
    (poll_transition s active layer rgb).1.cycle_brightness = 10 ∧
    (poll_transition s active layer rgb).1.cycle_direction_up = true ∧
    (poll_transition s active layer rgb).1.blink_on = (if layer = 1 then !rgb else false) ∧
    ∃ rest : List Action,
      (poll_transition s active layer rgb).2
        = Action.k_work_cancel_delayable Work.blink_work
            :: Action.k_work_cancel_delayable Work.cycle_work :: rest ∧
      (∀ w : Work, Action.k_work_cancel_delayable w ∉ rest) ∧
      (layer = 2 → rest = [Action.k_work_reschedule Work.cycle_work 100]) ∧
      (layer = 1 ∨ layer = 3 → Action.k_work_reschedule Work.blink_work 250 ∈ rest) ∧
      (layer ≠ 2 → ∃ level : Nat, Action.set_led_brightness level ∈ rest) := by
  by_cases h0 : layer = 0
  · subst h0
    rw [poll_transition_layer0]
    exact ⟨rfl, rfl, rfl, rfl, rfl, _, rfl, by simp, by simp, by simp,
      fun _ => ⟨if rgb && active then 90 else 0, by simp⟩⟩
  by_cases h1 : layer = 1
  · subst h1
    rw [poll_transition_layer1]
    exact ⟨rfl, rfl, rfl, rfl, rfl, _, rfl, by simp, by simp, by simp,
      fun _ => ⟨if rgb then 10 else 100, by simp⟩⟩
  by_cases h2 : layer = 2
  · subst h2
    rw [poll_transition_layer2]
    exact ⟨rfl, rfl, rfl, rfl, rfl, _, rfl, by simp, by simp, by simp, by simp⟩
  by_cases h3 : layer = 3
  · subst h3
    rw [poll_transition_layer3]
    exact ⟨rfl, rfl, rfl, rfl, rfl, _, rfl, by simp, by simp, by simp, fun _ => ⟨10, by simp⟩⟩
  · rw [poll_transition_other _ _ _ _ h0 h1 h2 h3]
    refine ⟨rfl, rfl, rfl, rfl, by simp [h1], _, rfl, by simp, by simp [h2], by simp [h1, h3],
      fun _ => ⟨0, by simp⟩⟩

theorem polling_work_handler_congr (s : ControllerState) (inp1 inp2 : PollInput)
    (hl : inp1.current_layer = inp2.current_layer) (ha : inp1.active = inp2.active)
    (hr : rgb_on inp1 = rgb_on inp2) :
    polling_work_handler s inp1 = polling_work_handler s inp2 := by
  simp only [polling_work_handler, hl, ha, hr]

theorem poll_transition_rgb_irrelevant (s : ControllerState) (active rgb1 rgb2 : Bool)
    (layer : Int) (h0 : layer ≠ 0) (h1 : layer ≠ 1) :
    poll_transition s active layer rgb1 = poll_transition s active layer rgb2 := by
  simp only [poll_transition, h0, h1, if_false]

/-- C14: a poller run whose sampled (layer, active) differs from the stored
pair, in the layer or in the activity alone, stores the sampled pair, sets
`cycle_brightness = 10` and the direction to rising, and sets `blink_on` to
`false`, except for layer 1, where `blink_on` becomes "underglow off": `true`
when the feature is compiled in and the query succeeds and reports off, `false`
when the underglow is reported on, the query fails or the feature is compiled
out. Its calls start with
the cancellation of the blink and of the breathe timer, nothing is cancelled
later, and whatever was pending before has no influence on the blink and breathe
timers after the tick. -/
theorem C14_transition_reset (s : ControllerState) (inp : PollInput)
    (ht : inp.current_layer ≠ s.prev_layer ∨ inp.active ≠ s.prev_active) :
    (polling_work_handler s inp).1.prev_layer = inp.current_layer ∧
    (polling_work_handler s inp).1.prev_active = inp.active ∧
    (polling_work_handler s inp).1.cycle_brightness = CYCLE_BRT_MIN ∧
    (polling_work_handler s inp).1.cycle_direction_up = true ∧
    (polling_work_handler s inp).1.blink_on
      = (if inp.current_layer = 1 then
          decide (inp.underglow_enabled = true ∧ 0 ≤ inp.underglow_ret
            ∧ inp.underglow_state = false)
        else false) ∧
    (∃ rest : List Action,
      (polling_work_handler s inp).2
        = Action.k_work_cancel_delayable Work.blink_work
            :: Action.k_work_cancel_delayable Work.cycle_work :: rest ∧
      (∀ w : Work, Action.k_work_cancel_delayable w ∉ rest)) ∧
    (∀ t1 t2 : Timers,
      (poll_tick ⟨s, t1⟩ inp).timers.blink_work = (poll_tick ⟨s, t2⟩ inp).timers.blink_work ∧
      (poll_tick ⟨s, t1⟩ inp).timers.cycle_work
        = (poll_tick ⟨s, t2⟩ inp).timers.cycle_work) := by
  obtain ⟨f1, f2, f3, f4, f5, rest, hrest, hnc, -, -, -⟩ :=
    poll_transition_fields s inp.active (rgb_on inp) inp.current_layer
  have f5r : (poll_transition s inp.active inp.current_layer (rgb_on inp)).1.blink_on
      = (if inp.current_layer = 1 then
          decide (inp.underglow_enabled = true ∧ 0 ≤ inp.underglow_ret
            ∧ inp.underglow_state = false)
        else false) := by
    rw [f5, rgb_on_eq_not_off, Bool.not_not]
  rw [polling_work_handler_changed _ _ ht]
  refine ⟨f1, f2, f3, f4, f5r, ⟨rest ++ [Action.k_work_reschedule Work.polling_work 100], ?_, ?_⟩,
    ?_⟩
  · simp [hrest]
  · intro w hw
    rcases List.mem_append.mp hw with h | h
    · exact hnc w h
    · simp at h
  · intro t1 t2
    simp only [poll_tick, polling_work_handler_changed _ _ ht, hrest, apply_actions,
      List.cons_append, List.foldl_cons, apply_action, Timers.set]
    exact ⟨trivial, trivial⟩

/-- Witness for C14: the activity alone changes while layer 2 stays, in the
middle of a breathe cycle, and the pattern restarts from 10, rising; and on a
change into layer 1 `blink_on` becomes `false` with the underglow reported on
and `true` with it reported off. -/
theorem C14_transition_reset_witness :
    (polling_work_handler ⟨true, 2, false, true, 55, false⟩
        ⟨false, 2, true, 0, true⟩).1.cycle_brightness = 10 ∧
    (polling_work_handler ⟨true, 2, false, true, 55, false⟩
        ⟨false, 2, true, 0, true⟩).1.cycle_direction_up = true ∧
    (polling_work_handler ⟨true, 2, true, true, 55, false⟩
        ⟨true, 1, true, 0, true⟩).1.blink_on = false ∧
    (polling_work_handler ⟨true, 2, false, true, 55, false⟩
        ⟨true, 1, true, 0, false⟩).1.blink_on = true :=
  ⟨(C14_transition_reset ⟨true, 2, false, true, 55, false⟩ ⟨false, 2, true, 0, true⟩
      (by decide)).2.2.1,
   (C14_transition_reset ⟨true, 2, false, true, 55, false⟩ ⟨false, 2, true, 0, true⟩
      (by decide)).2.2.2.1,
   (C14_transition_reset ⟨true, 2, true, true, 55, false⟩ ⟨true, 1, true, 0, true⟩
      (by decide)).2.2.2.2.1,
   (C14_transition_reset ⟨true, 2, false, true, 55, false⟩ ⟨true, 1, true, 0, false⟩
      (by decide)).2.2.2.2.1⟩

/-- C17: `middlebacklight_init` returns `-ENODEV` exactly when the device is not
ready, and then leaves the state as it was and makes no call. With the device
ready it returns 0, stores `prev_layer = -1` and the activity reading, emits
nothing, and after its calls the poller is pending with 100 ms while the blink
and breathe timers are not pending. -/
theorem C17_startup (device_ready active : Bool) (s : ControllerState) (t : Timers) :
    ((middlebacklight_init device_ready active s).1 = -ENODEV ↔ device_ready = false) ∧
    middlebacklight_init false active s = (-ENODEV, s, []) ∧
    apply_actions t (middlebacklight_init false active s).2.2 = t ∧
    (middlebacklight_init true active s).1 = 0 ∧
    (middlebacklight_init true active s).2.1
      = { s with prev_active := active, prev_layer := -1 } ∧
    emitted (middlebacklight_init true active s).2.2 = [] ∧
    apply_actions t (middlebacklight_init true active s).2.2
      = { polling_work := some 100, blink_work := none, cycle_work := none } := by
  refine ⟨?_, rfl, rfl, rfl, rfl, rfl, rfl⟩
  cases device_ready <;> simp [middlebacklight_init, ENODEV]

/-- C19: for a sampled layer other than 0 and 1, two poller runs from the same
state with the same layer and activity readings give the same state and the same
calls whatever the two underglow readings are; and for every layer, a run whose
underglow query fails gives the same state and calls as a run whose query
succeeds and reports the underglow on. -/
theorem C19_underglow_only_layers_0_1 (s : ControllerState) (inp1 inp2 : PollInput)
    (hl : inp1.current_layer = inp2.current_layer) (ha : inp1.active = inp2.active) :
    (inp1.current_layer ≠ 0 → inp1.current_layer ≠ 1 →
      polling_work_handler s inp1 = polling_work_handler s inp2) ∧
    (inp1.underglow_ret < 0 → 0 ≤ inp2.underglow_ret → inp2.underglow_state = true →
      polling_work_handler s inp1 = polling_work_handler s inp2) := by
  constructor
  · intro h0 h1
    simp only [polling_work_handler, ← hl, ← ha]
    rw [poll_transition_rgb_irrelevant s inp1.active (rgb_on inp1) (rgb_on inp2) _ h0 h1]
  · intro hfail hok htrue
    apply polling_work_handler_congr s inp1 inp2 hl ha
    have hnot : ¬ inp2.underglow_ret < 0 := not_lt.mpr hok
    simp [rgb_on, hfail, hnot, htrue]

/-- Witness for C19: layer 2 read with the underglow off and with it on, and
layer 1 read with a failing query and with a query that reports the underglow
on. -/
theorem C19_underglow_only_layers_0_1_witness :
    polling_work_handler boot_state ⟨true, 2, true, 0, false⟩
      = polling_work_handler boot_state ⟨true, 2, true, 0, true⟩ ∧
    polling_work_handler boot_state ⟨true, 1, true, -5, false⟩
      = polling_work_handler boot_state ⟨true, 1, true, 0, true⟩ :=
  ⟨(C19_underglow_only_layers_0_1 boot_state ⟨true, 2, true, 0, false⟩
      ⟨true, 2, true, 0, true⟩ rfl rfl).1 (by decide) (by decide),
   (C19_underglow_only_layers_0_1 boot_state ⟨true, 1, true, -5, false⟩
      ⟨true, 1, true, 0, true⟩ rfl rfl).2 (by decide) (by decide) rfl⟩

/-- C20: after a successful `middlebacklight_init`, a poller run that reads a
non-negative layer takes the transition branch whatever the activity and
underglow readings: it stores the sampled layer and activity, cancels both
timers, and then arms the breathe timer (layer 2) or emits a level (every other
layer) and, for layers 1 and 3, arms the blink timer. -/
theorem C20_first_tick_dispatches (s0 : ControllerState) (active0 : Bool) (inp : PollInput)
    (hnn : 0 ≤ inp.current_layer) :
    polling_work_handler (middlebacklight_init true active0 s0).2.1 inp
      = ((poll_transition (middlebacklight_init true active0 s0).2.1 inp.active
            inp.current_layer (rgb_on inp)).1,
         (poll_transition (middlebacklight_init true active0 s0).2.1 inp.active
            inp.current_layer (rgb_on inp)).2
           ++ [Action.k_work_reschedule Work.polling_work 100]) ∧
    (polling_work_handler (middlebacklight_init true active0 s0).2.1 inp).1.prev_layer
      = inp.current_layer ∧
    (polling_work_handler (middlebacklight_init true active0 s0).2.1 inp).1.prev_active
      = inp.active ∧
    (∃ rest : List Action,
      (polling_work_handler (middlebacklight_init true active0 s0).2.1 inp).2
        = Action.k_work_cancel_delayable Work.blink_work
            :: Action.k_work_cancel_delayable Work.cycle_work :: rest
            ++ [Action.k_work_reschedule Work.polling_work 100] ∧
      (inp.current_layer = 2 → rest = [Action.k_work_reschedule Work.cycle_work 100]) ∧
      (inp.current_layer = 1 ∨ inp.current_layer = 3 →
        Action.k_work_reschedule Work.blink_work 250 ∈ rest) ∧
      (inp.current_layer ≠ 2 → ∃ level : Nat, Action.set_led_brightness level ∈ rest)) := by
  have hprev : (middlebacklight_init true active0 s0).2.1.prev_layer = -1 := rfl
  have ht : inp.current_layer ≠ (middlebacklight_init true active0 s0).2.1.prev_layer
      ∨ inp.active ≠ (middlebacklight_init true active0 s0).2.1.prev_active := by
    left
    rw [hprev]
    omega
  obtain ⟨f1, f2, -, -, -, rest, hrest, -, h2, h13, hlev⟩ :=
    poll_transition_fields (middlebacklight_init true active0 s0).2.1 inp.active (rgb_on inp)
      inp.current_layer
  rw [polling_work_handler_changed _ _ ht]
  exact ⟨rfl, f1, f2, rest, by simp [hrest], h2, h13, hlev⟩

/-- Witness for C20: init reads active, and the first tick reads layer 0 and
active again; the sampled layer is stored all the same. -/
theorem C20_first_tick_dispatches_witness :
    (polling_work_handler (middlebacklight_init true true boot_state).2.1
        ⟨true, 0, true, 0, true⟩).1.prev_layer = 0 :=
  (C20_first_tick_dispatches boot_state true ⟨true, 0, true, 0, true⟩ (by decide)).2.1

/-! ## Claims on the LED device -/

theorem led_writes_append (xs ys : List Effect) :
    led_writes (xs ++ ys) = led_writes xs ++ led_writes ys := by
  induction xs with
  | nil => rfl
  | cons x rest ih => cases x <;> simp [led_writes, ih]

theorem work_calls_append (xs ys : List Effect) :
    work_calls (xs ++ ys) = work_calls xs ++ work_calls ys := by
  induction xs with
  | nil => rfl
  | cons x rest ih => cases x <;> simp [work_calls, ih]

theorem perform_all_append (dev : LedDevice) (num_leds : Nat) (xs ys : List Action) :
    perform_all dev num_leds (xs ++ ys)
      = perform_all dev num_leds xs ++ perform_all dev num_leds ys := by
  induction xs with
  | nil => rfl
  | cons x rest ih => simp [perform_all, ih]

theorem led_writes_set_led_loop (dev : LedDevice) (level remaining : Nat) :
    ∀ i : Nat, led_writes (set_led_loop dev level remaining i)
      = (List.range' i remaining).map (fun j => (j, level)) := by
  induction remaining with
  | zero => intro i; rfl
  | succ r ih =>
    intro i
    simp only [set_led_loop, List.cons_append, led_writes, led_writes_append,
      List.range'_succ, List.map_cons]
    split_ifs <;> simp [led_writes, ih (i + 1)]

theorem work_calls_set_led_loop (dev : LedDevice) (level remaining : Nat) :
    ∀ i : Nat, work_calls (set_led_loop dev level remaining i) = [] := by
  induction remaining with
  | zero => intro i; rfl
  | succ r ih =>
    intro i
    simp only [set_led_loop, List.cons_append, work_calls, work_calls_append]
    split_ifs <;> simp [work_calls, ih (i + 1)]

theorem work_calls_set_led_brightness (dev : LedDevice) (num_leds level : Nat) :
    work_calls (set_led_brightness dev num_leds level) = [] := by
  simp only [set_led_brightness]
  split_ifs
  · rfl
  · exact work_calls_set_led_loop dev level num_leds 0

theorem work_calls_perform_all (dev : LedDevice) (num_leds : Nat) (acts : List Action) :
    work_calls (perform_all dev num_leds acts) = timer_calls acts := by
  induction acts with
  | nil => rfl
  | cons a rest ih =>
    cases a <;>
      simp [perform_all, perform, work_calls_append, work_calls_set_led_brightness, work_calls,
        timer_calls, ih]

theorem led_writes_perform_all_not_ready (f : Nat → Nat → Int) (num_leds : Nat)
    (acts : List Action) :
    led_writes (perform_all ⟨false, f⟩ num_leds acts) = [] := by
  induction acts with
  | nil => rfl
  | cons a rest ih =>
    cases a <;>
      simp [perform_all, perform, led_writes_append, set_led_brightness, led_writes, ih]

/-- C16: with the device ready, `set_led_brightness(level)` writes `level` to
the channels 0, 1, ..., N-1, once each and in that order, whatever the return
values of the writes; with the device not ready it writes to no channel. -/
theorem C16_output_sink_every_channel (f : Nat → Nat → Int) (num_leds level : Nat) :
    led_writes (set_led_brightness ⟨true, f⟩ num_leds level)
      = (List.range num_leds).map (fun i => (i, level)) ∧
    led_writes (set_led_brightness ⟨false, f⟩ num_leds level) = [] := by
  constructor
  · simp only [set_led_brightness, Bool.not_true, Bool.false_eq_true, if_false]
    rw [led_writes_set_led_loop, List.range_eq_range']
  · rfl

/-- C15: the state after a run of `polling_work_handler`, of
`blink_work_handler` or of `cycle_work_handler`, and the work-queue calls it
makes, are the same on any two devices (ready or not, with any return values of
the channel writes); the poller's last effect is always its own re-arming with
100 ms; and on a device that is not ready no handler writes to a channel. -/
theorem C15_led_device_independence (dev1 dev2 : LedDevice) (f : Nat → Nat → Int)
    (num_leds : Nat) (s : ControllerState) (inp : PollInput) :
    (polling_work_handler_on dev1 num_leds s inp).1
      = (polling_work_handler_on dev2 num_leds s inp).1 ∧
    work_calls (polling_work_handler_on dev1 num_leds s inp).2
      = work_calls (polling_work_handler_on dev2 num_leds s inp).2 ∧
    (∃ before : List Effect, (polling_work_handler_on dev1 num_leds s inp).2
      = before ++ [Effect.k_work_reschedule Work.polling_work 100]) ∧
    led_writes (polling_work_handler_on ⟨false, f⟩ num_leds s inp).2 = [] ∧
    (blink_work_handler_on dev1 num_leds s).1 = (blink_work_handler_on dev2 num_leds s).1 ∧
    work_calls (blink_work_handler_on dev1 num_leds s).2
      = work_calls (blink_work_handler_on dev2 num_leds s).2 ∧
    led_writes (blink_work_handler_on ⟨false, f⟩ num_leds s).2 = [] ∧
    (cycle_work_handler_on dev1 num_leds s).1 = (cycle_work_handler_on dev2 num_leds s).1 ∧
    work_calls (cycle_work_handler_on dev1 num_leds s).2
      = work_calls (cycle_work_handler_on dev2 num_leds s).2 ∧
    led_writes (cycle_work_handler_on ⟨false, f⟩ num_leds s).2 = [] := by
  refine ⟨rfl, ?_, ?_, ?_, rfl, ?_, ?_, rfl, ?_, ?_⟩
  · simp only [polling_work_handler_on, work_calls_perform_all]
  · refine ⟨perform_all dev1 num_leds
      (if inp.current_layer ≠ s.prev_layer ∨ inp.active ≠ s.prev_active then
        poll_transition s inp.active inp.current_layer (rgb_on inp) else (s, [])).2, ?_⟩
    simp only [polling_work_handler_on, polling_work_handler, perform_all_append]
    rfl
  · exact led_writes_perform_all_not_ready f num_leds _
  · simp only [blink_work_handler_on, work_calls_perform_all]
  · exact led_writes_perform_all_not_ready f num_leds _
  · simp only [cycle_work_handler_on, work_calls_perform_all]
  · exact led_writes_perform_all_not_ready f num_leds _

/-! ## The brightness domain -/

theorem emitted_append (xs ys : List Action) :
    emitted (xs ++ ys) = emitted xs ++ emitted ys := by
  induction xs with
  | nil => rfl
  | cons x rest ih => cases x <;> simp [emitted, ih]

theorem cycle_advance_le (s : ControllerState) (h : s.cycle_brightness ≤ 100) :
    (cycle_advance s).cycle_brightness ≤ 100 := by
  simp only [cycle_advance, CYCLE_BRT_STEP, CYCLE_BRT_MAX, CYCLE_BRT_MIN]
  have hmod : (s.cycle_brightness + 5) % 256 = s.cycle_brightness + 5 :=
    Nat.mod_eq_of_lt (by omega)
  split_ifs with hu hmax hlow
  · exact Nat.le_refl 100
  · show (s.cycle_brightness + 5) % 256 ≤ 100
    omega
  · show 10 ≤ 100
    omega
  · show (s.cycle_brightness + 256 - 5) % 256 ≤ 100
    omega

theorem poll_step_bounded (s : ControllerState) (inp : PollInput)
    (h : s.cycle_brightness ≤ 100) :
    (polling_work_handler s inp).1.cycle_brightness ≤ 100 ∧
    ∀ level ∈ emitted (polling_work_handler s inp).2, level ≤ 100 := by
  by_cases ht : inp.current_layer ≠ s.prev_layer ∨ inp.active ≠ s.prev_active
  · rw [polling_work_handler_changed _ _ ht]
    obtain ⟨-, -, f3, -, -, -⟩ :=
      poll_transition_fields s inp.active (rgb_on inp) inp.current_layer
    refine ⟨by simp only [f3]; omega, ?_⟩
    simp only [emitted_append]
    by_cases h0 : inp.current_layer = 0
    · rw [h0, poll_transition_layer0]
      intro level hlevel
      simp [emitted] at hlevel
      split_ifs at hlevel <;> omega
    by_cases h1 : inp.current_layer = 1
    · rw [h1, poll_transition_layer1]
      intro level hlevel
      simp [emitted] at hlevel
      split_ifs at hlevel <;> omega
    by_cases h2 : inp.current_layer = 2
    · rw [h2, poll_transition_layer2]
      intro level hlevel
      simp [emitted] at hlevel
    by_cases h3 : inp.current_layer = 3
    · rw [h3, poll_transition_layer3]
      intro level hlevel
      simp [emitted] at hlevel
      omega
    · rw [poll_transition_other _ _ _ _ h0 h1 h2 h3]
      intro level hlevel
      simp [emitted] at hlevel
      omega
  · have hl : inp.current_layer = s.prev_layer := by
      by_contra hcon; exact ht (Or.inl hcon)
    have ha : inp.active = s.prev_active := by
      by_contra hcon; exact ht (Or.inr hcon)
    rw [polling_work_handler_same _ _ hl ha]
    exact ⟨h, by simp [emitted]⟩

theorem blink_step_bounded (s : ControllerState) (h : s.cycle_brightness ≤ 100) :
    (blink_work_handler s).1.cycle_brightness ≤ 100 ∧
    ∀ level ∈ emitted (blink_work_handler s).2, level ≤ 100 := by
  by_cases hg : s.prev_layer ≠ 1 ∧ s.prev_layer ≠ 3
  · simp only [blink_work_handler, if_pos hg]
    exact ⟨h, by simp [emitted]⟩
  · simp only [blink_work_handler, if_neg hg]
    refine ⟨h, ?_⟩
    intro level hlevel
    simp [emitted, BRT_BLINK_HIGH, BRT_BLINK_LOW] at hlevel
    split_ifs at hlevel <;> omega

theorem cycle_step_bounded (s : ControllerState) (h : s.cycle_brightness ≤ 100) :
    (cycle_work_handler s).1.cycle_brightness ≤ 100 ∧
    ∀ level ∈ emitted (cycle_work_handler s).2, level ≤ 100 := by
  by_cases hg : s.prev_layer ≠ 2
  · simp only [cycle_work_handler, if_pos hg]
    exact ⟨h, by simp [emitted]⟩
  · simp only [cycle_work_handler, if_neg hg]
    refine ⟨cycle_advance_le s h, ?_⟩
    intro level hlevel
    simp [emitted] at hlevel
    omega

theorem step_bounded (sys : System) (e : Event) (h : sys.state.cycle_brightness ≤ 100) :
    (step sys e).1.state.cycle_brightness ≤ 100 ∧
    ∀ level ∈ emitted (step sys e).2, level ≤ 100 := by
  cases e with
  | poll inp => exact poll_step_bounded sys.state inp h
  | blink => exact blink_step_bounded sys.state h
  | cycle => exact cycle_step_bounded sys.state h

theorem exec_bounded (evs : List Event) :
    ∀ sys : System, sys.state.cycle_brightness ≤ 100 →
      (exec sys evs).1.state.cycle_brightness ≤ 100 ∧
      ∀ level ∈ emitted (exec sys evs).2, level ≤ 100 := by
  induction evs with
  | nil =>
    intro sys h
    exact ⟨h, by simp [exec, emitted]⟩
  | cons e es ih =>
    intro sys h
    obtain ⟨h1, h2⟩ := step_bounded sys e h
    obtain ⟨h3, h4⟩ := ih (step sys e).1 h1
    refine ⟨h3, ?_⟩
    intro level hlevel
    simp only [exec, emitted_append, List.mem_append] at hlevel
    rcases hlevel with hl | hl
    · exact h2 level hl
    · exact h4 level hl

/-- Every execution in which the blink and breathe timers fire only when
pending is an execution of `exec`. -/
theorem run_eq_exec (evs : List Event) :
    ∀ sys sys1 : System, run sys evs = some sys1 → (exec sys evs).1 = sys1 := by
  induction evs with
  | nil =>
    intro sys sys1 h
    simp only [run, Option.some.injEq] at h
    exact h
  | cons e es ih =>
    intro sys sys1 h
    simp only [run] at h
    cases hf : fire sys e with
    | none => rw [hf] at h; cases h
    | some sys2 =>
      rw [hf] at h
      have hstep : (step sys e).1 = sys2 := by
        cases e with
        | poll inp => simpa [fire, step] using hf
        | blink =>
          simp only [fire] at hf
          split_ifs at hf
          simpa [step] using hf
        | cycle =>
          simp only [fire] at hf
          split_ifs at hf
          simpa [step] using hf
      simp only [exec, hstep]
      exact ih sys2 sys1 h

/-- C18: in every execution from `middlebacklight_init` (device ready or not,
any activity reading) made of poller ticks with arbitrary readings and of blink
and breathe runs in any order, stale firings included, every level passed to
`set_led_brightness` is at most 100 and the stored `cycle_brightness` is at most
100; so in the state reached the 8-bit addition of the step does not wrap, and
the 8-bit subtraction, made only when `cycle_brightness ≥ 5`, does not wrap
either. -/
theorem C18_brightness_domain (device_ready active : Bool) (evs : List Event) :
    (∀ level ∈ emitted (exec (system_init device_ready active) evs).2,
      0 ≤ level ∧ level ≤ 100) ∧
    (exec (system_init device_ready active) evs).1.state.cycle_brightness ≤ 100 ∧
    ((exec (system_init device_ready active) evs).1.state.cycle_brightness + CYCLE_BRT_STEP)
        % 256
      = (exec (system_init device_ready active) evs).1.state.cycle_brightness
          + CYCLE_BRT_STEP ∧
    (¬ (exec (system_init device_ready active) evs).1.state.cycle_brightness < CYCLE_BRT_STEP →
      ((exec (system_init device_ready active) evs).1.state.cycle_brightness + 256
          - CYCLE_BRT_STEP) % 256 + CYCLE_BRT_STEP
        = (exec (system_init device_ready active) evs).1.state.cycle_brightness) := by
  have hinit : (system_init device_ready active).state.cycle_brightness ≤ 100 := by
    cases device_ready <;>
      simp [system_init, middlebacklight_init, boot_system, boot_state, CYCLE_BRT_MIN]
  obtain ⟨hb, hl⟩ := exec_bounded evs (system_init device_ready active) hinit
  refine ⟨fun level hlevel => ⟨Nat.zero_le level, hl level hlevel⟩, hb, ?_, ?_⟩
  · simp only [CYCLE_BRT_STEP]
    omega
  · simp only [CYCLE_BRT_STEP]
    omega

/-- Witness for C18: init, a tick into layer 2, two breathe runs, a tick into
layer 1 and a stale breathe firing; the stored brightness is then 10, and
subtracting the step from it does not wrap. -/
theorem C18_brightness_domain_witness :
    (¬ (exec (system_init true true)
          [Event.poll ⟨true, 2, true, 0, true⟩, Event.cycle, Event.cycle,
           Event.poll ⟨true, 1, true, 0, true⟩, Event.cycle]).1.state.cycle_brightness
        < CYCLE_BRT_STEP) ∧
    ((exec (system_init true true)
          [Event.poll ⟨true, 2, true, 0, true⟩, Event.cycle, Event.cycle,
           Event.poll ⟨true, 1, true, 0, true⟩, Event.cycle]).1.state.cycle_brightness + 256
          - CYCLE_BRT_STEP) % 256 + CYCLE_BRT_STEP
      = (exec (system_init true true)
          [Event.poll ⟨true, 2, true, 0, true⟩, Event.cycle, Event.cycle,
           Event.poll ⟨true, 1, true, 0, true⟩, Event.cycle]).1.state.cycle_brightness :=
  ⟨by decide,
   (C18_brightness_domain true true
      [Event.poll ⟨true, 2, true, 0, true⟩, Event.cycle, Event.cycle,
       Event.poll ⟨true, 1, true, 0, true⟩, Event.cycle]).2.2.2 (by decide)⟩

end KeyboardBacklight
